import Mathlib

/-!
Shallow embedding of the vr-theatre checkout / fulfillment / redemption
pipeline (src/server/routes.ts and the sqlite storage layer), together with
proofs of the spec claims about it.

Conventions of the embedding:
* JavaScript numbers are modelled as rationals (`ℚ`); `Math.round` is
  round-half-up (`⌊x + 1/2⌋`), which agrees with `Math.round` on all inputs
  in exact arithmetic.
* SQLite rows are Lean structures; a table is a `List` of rows in insertion
  order (matching `ORDER BY created_at ASC` for rows created in sequence);
  `SELECT ... WHERE` with a single result is `List.find?`.
* The snake_case/camelCase normalization done by `normalizeContent` is
  collapsed: the model keeps one canonical record per table.
* `randomUUID` and the random ticket-code generator are modelled by an
  explicit generator state (`Gen`) holding streams of ids and codes.
* Fallible storage calls return `Except String`; route handlers catch those
  errors like the TypeScript `try/catch` does.
-/

namespace VRTheatre

/-- JavaScript `Math.round`: round half toward positive infinity. -/
def jsRound (q : ℚ) : ℤ := ⌊q + 1/2⌋

/-- JavaScript `x || d` for a possibly-missing number: a missing field and
the (falsy) number 0 both give `d`. -/
def jsOrNum (o : Option ℚ) (d : ℚ) : ℚ :=
  match o with
  | none => d
  | some q => if q = 0 then d else q

/-- JavaScript `s || d` for a possibly-missing string: missing and the
(falsy) empty string both give `d`. -/
def jsOrStr (o : Option String) (d : String) : String :=
  match o with
  | none => d
  | some s => if s = "" then d else s

/-- JavaScript `.toLowerCase()` (ASCII range, which is all the dispatch on
payment-method names compares), written as a structural map over the
string's characters. -/
def jsToLower (s : String) : String := String.mk (s.data.map Char.toLower)

/-- Platform settings as read by the fee computation
(`storage.getSettings()`); fields absent from the stored JSON are `none`.
Only the fee-related fields are modelled; branding/SMTP fields are out of
scope. -/
structure Settings where
  feeFixedCents : Option ℚ := none
  feePercent : Option ℚ := none
  paymentFeeFixedCents : Option ℚ := none
  paymentFeePercent : Option ℚ := none
  taxPercent : Option ℚ := none
deriving DecidableEq, Repr

/-- The fee/tax breakdown returned by the cart and quote endpoints. -/
structure FeeBreakdown where
  subtotal : ℚ
  serviceFee : ℚ
  paymentFee : ℚ
  tax : ℚ
  total : ℚ
deriving DecidableEq, Repr

/-- Fee computation of `POST /api/purchase/cart` (routes.ts, the block
starting `const feeFixed = Number(settings.feeFixedCents || 0)` through
`const total = subtotal + serviceFee + paymentFee + tax`). -/
def cartFeeBreakdown (subtotal : ℚ) (s : Settings) : FeeBreakdown :=
  let feeFixed := jsOrNum s.feeFixedCents 0
  let feePct := jsOrNum s.feePercent 0
  let payFeeFixed := jsOrNum s.paymentFeeFixedCents 0
  let payFeePct := jsOrNum s.paymentFeePercent 0
  let taxPct := jsOrNum s.taxPercent 0
  let serviceFee : ℚ := (jsRound (subtotal * (feePct / 100)) : ℤ) + (jsRound feeFixed : ℤ)
  let paymentBase := subtotal + serviceFee
  let paymentFee : ℚ := (jsRound (paymentBase * (payFeePct / 100)) : ℤ) + (jsRound payFeeFixed : ℤ)
  let tax : ℚ := (jsRound ((subtotal + serviceFee + paymentFee) * (taxPct / 100)) : ℤ)
  { subtotal := subtotal
    serviceFee := serviceFee
    paymentFee := paymentFee
    tax := tax
    total := subtotal + serviceFee + paymentFee + tax }

/-- Fee computation of `POST /api/purchase/cart/quote` (routes.ts; textually
the same block as in the cart handler). -/
def quoteFeeBreakdown (subtotal : ℚ) (s : Settings) : FeeBreakdown :=
  let feeFixed := jsOrNum s.feeFixedCents 0
  let feePct := jsOrNum s.feePercent 0
  let payFeeFixed := jsOrNum s.paymentFeeFixedCents 0
  let payFeePct := jsOrNum s.paymentFeePercent 0
  let taxPct := jsOrNum s.taxPercent 0
  let serviceFee : ℚ := (jsRound (subtotal * (feePct / 100)) : ℤ) + (jsRound feeFixed : ℤ)
  let paymentBase := subtotal + serviceFee
  let paymentFee : ℚ := (jsRound (paymentBase * (payFeePct / 100)) : ℤ) + (jsRound payFeeFixed : ℤ)
  let tax : ℚ := (jsRound ((subtotal + serviceFee + paymentFee) * (taxPct / 100)) : ℤ)
  { subtotal := subtotal
    serviceFee := serviceFee
    paymentFee := paymentFee
    tax := tax
    total := subtotal + serviceFee + paymentFee + tax }

/-- The staged fee formula exactly as the spec states it (§4.2):
`serviceFee = round(subtotal*feePercent/100) + feeFixedCents`,
`paymentFee = round((subtotal+serviceFee)*paymentFeePercent/100) + paymentFeeFixedCents`,
`tax = round((subtotal+serviceFee+paymentFee)*taxPercent/100)`,
`total = subtotal + serviceFee + paymentFee + tax`, missing fields
defaulting to 0.  Written from the spec's words, to be compared with the
code-side `cartFeeBreakdown`. -/
def specStagedBreakdown (subtotal : ℚ) (s : Settings) : FeeBreakdown :=
  let serviceFee : ℚ := (jsRound (subtotal * ((s.feePercent.getD 0) / 100)) : ℤ) + s.feeFixedCents.getD 0
  let paymentFee : ℚ :=
    (jsRound ((subtotal + serviceFee) * ((s.paymentFeePercent.getD 0) / 100)) : ℤ) + s.paymentFeeFixedCents.getD 0
  let tax : ℚ := (jsRound ((subtotal + serviceFee + paymentFee) * ((s.taxPercent.getD 0) / 100)) : ℤ)
  { subtotal := subtotal
    serviceFee := serviceFee
    paymentFee := paymentFee
    tax := tax
    total := subtotal + serviceFee + paymentFee + tax }

/-! ## Data model (sqlite storage layer, second document of the storage
source: tables `contents`, `orders`, `order_groups`, `tickets`) -/

/-- A row of the `contents` table, in the camelCase shape produced by
`normalizeContent` (only the fields the purchase pipeline reads). -/
structure Content where
  id : String
  title : String
  ticketPriceStandard : ℚ
  ticketPriceVip : ℚ
  ticketPricePremium : ℚ
  unlimitedTickets : Bool
  availableTickets : ℚ
deriving DecidableEq, Repr

/-- A row of the `orders` table. -/
structure Order where
  id : String
  contentId : String
  userId : Option String
  buyerEmail : String
  ticketType : String
  quantity : ℚ
  totalAmount : ℚ
  currency : String
  status : String
  stripeSessionId : Option String
  groupId : Option String
deriving DecidableEq, Repr

/-- A row of the `order_groups` table. -/
structure OrderGroup where
  id : String
  userId : Option String
  buyerEmail : String
  subtotalAmount : ℚ
  serviceFeeAmount : ℚ
  paymentFeeAmount : ℚ
  taxAmount : ℚ
  totalAmount : ℚ
  currency : String
  status : String
  stripeSessionId : Option String
deriving DecidableEq, Repr

/-- A row of the `tickets` table (`code` carries a storage-level UNIQUE
constraint; `used_at` / `used_by` are the redemption columns). -/
structure Ticket where
  id : String
  orderId : String
  contentId : String
  ticketType : String
  code : String
  issuedTo : String
  usedAt : Option ℕ
  usedBy : Option String
deriving DecidableEq, Repr

/-- The database state.  `now` models sqlite's `datetime('now')` as an
abstract clock value stored into `used_at` on redemption. -/
structure Db where
  contents : List Content
  orders : List Order
  groups : List OrderGroup
  tickets : List Ticket
  now : ℕ
deriving DecidableEq, Repr

/-- Generator state standing in for `crypto.randomUUID()` and the
`Math.random()`-based ticket-code generator: two streams of strings with
cursors. -/
structure Gen where
  ids : ℕ → String
  codes : ℕ → String
  idCtr : ℕ
  codeCtr : ℕ

/-- Draw the next id from the generator (`randomUUID()`). -/
def Gen.nextId (g : Gen) : String × Gen :=
  (g.ids g.idCtr, { g with idCtr := g.idCtr + 1 })

/-- Draw the next ticket code from the generator
(`'VR-' + random segment + '-' + random segment`). -/
def Gen.nextCode (g : Gen) : String × Gen :=
  (g.codes g.codeCtr, { g with codeCtr := g.codeCtr + 1 })

/-! ## Storage operations (class SqliteStorage) -/

/-- `getContentById`: `SELECT * FROM contents WHERE id = ?` then
`normalizeContent` (collapsed to the canonical record). -/
def getContentById (db : Db) (id : String) : Option Content :=
  db.contents.find? (fun c => c.id = id)

/-- `decrementAvailableTickets(contentId, quantity)`: no row → return; a row
with `unlimited_tickets` truthy → return; otherwise store
`max(0, available - quantity)`. -/
def decrementAvailableTickets (db : Db) (contentId : String) (quantity : ℚ) : Db :=
  match db.contents.find? (fun c => c.id = contentId) with
  | none => db
  | some row =>
    if row.unlimitedTickets then db
    else
      let current := if row.availableTickets = 0 then 0 else row.availableTickets
      let next := max 0 (current - (if quantity = 0 then 0 else quantity))
      { db with
        contents := db.contents.map (fun c =>
          if c.id = contentId then { c with availableTickets := next } else c) }

/-- `createOrder(data)`: INSERT a new order row (no `group_id`), then
`SELECT * FROM orders WHERE id = ?`. -/
def createOrder (db : Db) (id : String) (contentId : String) (userId : Option String)
    (buyerEmail : String) (ticketType : String) (quantity : ℚ) (totalAmount : ℚ)
    (stripeSessionId : Option String) : Option Order × Db :=
  let row : Order :=
    { id := id, contentId := contentId, userId := userId, buyerEmail := buyerEmail
      ticketType := ticketType, quantity := quantity, totalAmount := totalAmount
      currency := "eur", status := "pending", stripeSessionId := stripeSessionId
      groupId := none }
  let db' := { db with orders := db.orders ++ [row] }
  (db'.orders.find? (fun o => o.id = id), db')

/-- `createOrderInGroup(groupId, data)`: INSERT a new order row carrying
`group_id`, then `SELECT * FROM orders WHERE id = ?`. -/
def createOrderInGroup (db : Db) (groupId : String) (id : String) (contentId : String)
    (userId : Option String) (buyerEmail : String) (ticketType : String)
    (quantity : ℚ) (totalAmount : ℚ) : Option Order × Db :=
  let row : Order :=
    { id := id, contentId := contentId, userId := userId, buyerEmail := buyerEmail
      ticketType := ticketType, quantity := quantity, totalAmount := totalAmount
      currency := "eur", status := "pending", stripeSessionId := none
      groupId := some groupId }
  let db' := { db with orders := db.orders ++ [row] }
  (db'.orders.find? (fun o => o.id = id), db')

/-- `setOrderPaid(orderId)`: `UPDATE orders SET status = 'paid' WHERE id = ?`
then re-SELECT the row. -/
def setOrderPaid (db : Db) (orderId : String) : Option Order × Db :=
  let db' := { db with
    orders := db.orders.map (fun o =>
      if o.id = orderId then { o with status := "paid" } else o) }
  (db'.orders.find? (fun o => o.id = orderId), db')

/-- `getOrderByStripeSession(sessionId)`. -/
def getOrderByStripeSession (db : Db) (sessionId : String) : Option Order :=
  db.orders.find? (fun o => o.stripeSessionId = some sessionId)

/-- `setOrderStripeSession(orderId, sessionId)`. -/
def setOrderStripeSession (db : Db) (orderId : String) (sessionId : String) : Db :=
  { db with
    orders := db.orders.map (fun o =>
      if o.id = orderId then { o with stripeSessionId := some sessionId } else o) }

/-- `createOrderGroup(data)`: INSERT a group row with status `'pending'`
(amounts pass through `Math.round`), then re-SELECT it. -/
def createOrderGroup (db : Db) (id : String) (userId : Option String) (buyerEmail : String)
    (subtotalAmount serviceFeeAmount paymentFeeAmount taxAmount totalAmount : ℚ) :
    Option OrderGroup × Db :=
  let row : OrderGroup :=
    { id := id, userId := userId, buyerEmail := buyerEmail
      subtotalAmount := (jsRound subtotalAmount : ℤ)
      serviceFeeAmount := (jsRound (if serviceFeeAmount = 0 then 0 else serviceFeeAmount) : ℤ)
      paymentFeeAmount := (jsRound (if paymentFeeAmount = 0 then 0 else paymentFeeAmount) : ℤ)
      taxAmount := (jsRound (if taxAmount = 0 then 0 else taxAmount) : ℤ)
      totalAmount := (jsRound totalAmount : ℤ)
      currency := "eur", status := "pending", stripeSessionId := none }
  let db' := { db with groups := db.groups ++ [row] }
  (db'.groups.find? (fun g => g.id = id), db')

/-- `setOrderGroupStripeSession(groupId, sessionId)`. -/
def setOrderGroupStripeSession (db : Db) (groupId : String) (sessionId : String) : Db :=
  { db with
    groups := db.groups.map (fun g =>
      if g.id = groupId then { g with stripeSessionId := some sessionId } else g) }

/-- `getOrderGroupByStripeSession(sessionId)`. -/
def getOrderGroupByStripeSession (db : Db) (sessionId : String) : Option OrderGroup :=
  db.groups.find? (fun g => g.stripeSessionId = some sessionId)

/-- `setOrderGroupPaid(groupId)`: set the group's status to `'paid'`, also
mark all child orders (`WHERE group_id = ?`) `'paid'`, then re-SELECT the
group. -/
def setOrderGroupPaid (db : Db) (groupId : String) : Option OrderGroup × Db :=
  let db' := { db with
    groups := db.groups.map (fun g =>
      if g.id = groupId then { g with status := "paid" } else g)
    orders := db.orders.map (fun o =>
      if o.groupId = some groupId then { o with status := "paid" } else o) }
  (db'.groups.find? (fun g => g.id = groupId), db')

/-- `getOrdersByGroupId(groupId)` (insertion order stands in for
`ORDER BY created_at ASC`). -/
def getOrdersByGroupId (db : Db) (groupId : String) : List Order :=
  db.orders.filter (fun o => o.groupId = some groupId)

/-- One iteration step of the `issueTickets` loop: generate a code and an
id, INSERT the ticket.  The INSERT is rejected when the generated code
already exists (`code TEXT NOT NULL UNIQUE`); tickets inserted by earlier
iterations stay in the database, as with the awaited sequential INSERTs in
the source. -/
def issueTicketsLoop (order : Order) : ℕ → Db → Gen → List Ticket →
    Except String (List Ticket) × Db × Gen
  | 0, db, g, acc => (.ok acc, db, g)
  | n + 1, db, g, acc =>
    let (code, g₁) := g.nextCode
    let (id, g₂) := g₁.nextId
    if db.tickets.any (fun t => t.code = code) then
      (.error "UNIQUE constraint failed: tickets.code", db, g₂)
    else
      let t : Ticket :=
        { id := id, orderId := order.id, contentId := order.contentId
          ticketType := order.ticketType, code := code, issuedTo := order.buyerEmail
          usedAt := none, usedBy := none }
      issueTicketsLoop order n { db with tickets := db.tickets ++ [t] } g₂ (acc ++ [t])

/-- `issueTickets(order)`: insert `order.quantity` tickets with freshly
generated codes; a code collision makes the INSERT throw and aborts the
loop (there is no retry in the source).  The iteration count is the number
of JavaScript loop steps `i = 0, 1, ...` with `i < Number(order.quantity || 0)`,
i.e. `max 0 ⌈quantity⌉`. -/
def issueTickets (order : Order) (db : Db) (g : Gen) :
    Except String (List Ticket) × Db × Gen :=
  issueTicketsLoop order (max 0 ⌈if order.quantity = 0 then 0 else order.quantity⌉).toNat db g []

/-- `redeemTicket(code, contentId, userId)`: look up by code (`NotFound`),
check content (`ContentMismatch`), check `used_at` (`AlreadyUsed`), then
UPDATE `used_at`/`used_by` and re-SELECT the row by id. -/
def redeemTicket (db : Db) (code : String) (contentId : String)
    (userId : Option String) : Except String (Option Ticket) × Db :=
  match db.tickets.find? (fun t => t.code = code) with
  | none => (.error "Ticket non trovato", db)
  | some ticket =>
    if ticket.contentId ≠ contentId then
      (.error "Ticket non valido per questo contenuto", db)
    else if ticket.usedAt.isSome then
      (.error "Ticket già utilizzato", db)
    else
      let db' := { db with
        tickets := db.tickets.map (fun t =>
          if t.id = ticket.id then { t with usedAt := some db.now, usedBy := userId } else t) }
      (.ok (db'.tickets.find? (fun t => t.id = ticket.id)), db')

/-! ## Route handlers (routes.ts) -/

/-- External environment of a request: whether Stripe is configured, and the
session id/url the Stripe API would return for a created checkout session. -/
structure Env where
  stripeConfigured : Bool
  sessionId : String
  sessionUrl : String

/-- The `quantity` field of a `POST /api/purchase` body, as the handler
observes it: absent, a JSON number, or a truthy non-numeric value (whose
`Number(...)` conversion is NaN). -/
inductive QtyInput where
  | missing
  | numVal (q : ℚ)
  | nonNumeric
deriving DecidableEq, Repr

/-- JavaScript truthiness of a `QtyInput`. -/
def qtyTruthy : QtyInput → Bool
  | .missing => false
  | .numVal q => q ≠ 0
  | .nonNumeric => true

/-- `Number(quantity)`; `none` is NaN. -/
def qtyToNum : QtyInput → Option ℚ
  | .missing => none
  | .numVal q => some q
  | .nonNumeric => none

/-- Price resolution `prices[ticketType]` over the record built from
`ticketPriceStandard` / `ticketPriceVip` / `ticketPricePremium` (used by the
single-purchase handler with `?? null` and by the cart/quote loops with the
`unit == null` check). -/
def resolvePrice (c : Content) (t : String) : Option ℚ :=
  if t = "standard" then some c.ticketPriceStandard
  else if t = "vip" then some c.ticketPriceVip
  else if t = "premium" then some c.ticketPricePremium
  else none

/-- Request body of `POST /api/purchase`.  `contentId`/`ticketType` are
required-checked by truthiness (empty string is falsy). -/
structure PurchaseReq where
  contentId : String
  ticketType : String
  quantity : QtyInput
  method : Option String
  buyerEmail : Option String
deriving DecidableEq, Repr

/-- Outcome of `POST /api/purchase`, one constructor per `return res...`
site the pipeline can reach. -/
inductive PurchaseResult where
  | badRequest (msg : String)
  | notFound (msg : String)
  | stripeUnavailable (orderId : String)
  | checkoutSession (orderId : String) (url : String)
  | notSupported (msg : String) (orderId : String)
  | fulfilled (orderId : String) (tickets : List Ticket)
  | serverError (msg : String)
deriving DecidableEq, Repr

/-- Buyer email resolution shared by the purchase and cart handlers:
authenticated user's email first, else `buyerEmail || null`, with JS falsy
checks (`!email`). -/
def resolveEmail (auth : Option (String × String)) (buyerEmail : Option String) :
    Option String :=
  let fromAuth : Option String :=
    match auth with
    | some (_, e) => if e = "" then none else some e
    | none => none
  match fromAuth with
  | some e => some e
  | none =>
    match buyerEmail with
    | none => none
    | some b => if b = "" then none else some b

/-- `POST /api/purchase` (routes.ts): required-field check, quantity
validation, content/price/availability checks, buyer email resolution,
order creation, then dispatch on `(method || 'stripe').toLowerCase()` —
Stripe session, 501 for paypal/satispay, or the manual settlement
fallback. -/
def postPurchase (env : Env) (auth : Option (String × String)) (req : PurchaseReq)
    (db : Db) (g : Gen) : PurchaseResult × Db × Gen :=
  if req.contentId = "" ∨ req.ticketType = "" ∨ ¬ qtyTruthy req.quantity then
    (.badRequest "contentId, ticketType, quantity are required", db, g)
  else
    match qtyToNum req.quantity with
    | none => (.badRequest "Invalid quantity", db, g)
    | some qty =>
      if qty < 1 ∨ qty > 10 then (.badRequest "Invalid quantity", db, g)
      else
        match getContentById db req.contentId with
        | none => (.notFound "Content not found", db, g)
        | some content =>
          match resolvePrice content req.ticketType with
          | none => (.badRequest "Invalid ticket type", db, g)
          | some price =>
            if ¬ content.unlimitedTickets ∧ content.availableTickets < qty then
              (.badRequest "Not enough tickets available", db, g)
            else
              let userId := auth.map Prod.fst
              match resolveEmail auth req.buyerEmail with
              | none => (.badRequest "buyerEmail required for guests", db, g)
              | some email =>
                let totalAmountCents : ℚ := ((jsRound (price * 100) : ℤ) : ℚ) * qty
                let (oid, g₁) := g.nextId
                let (ordOpt, db₁) :=
                  createOrder db oid req.contentId userId email req.ticketType qty
                    totalAmountCents none
                match ordOpt with
                | none => (.serverError "order row not found", db₁, g₁)
                | some order =>
                  let payMethod := jsToLower (jsOrStr req.method "stripe")
                  if payMethod = "stripe" then
                    if ¬ env.stripeConfigured then
                      (.stripeUnavailable order.id, db₁, g₁)
                    else
                      let db₂ := setOrderStripeSession db₁ order.id env.sessionId
                      (.checkoutSession order.id env.sessionUrl, db₂, g₁)
                  else if payMethod = "paypal" ∨ payMethod = "satispay" then
                    (.notSupported (payMethod ++ " non ancora supportato") order.id, db₁, g₁)
                  else
                    let (paidOpt, db₂) := setOrderPaid db₁ order.id
                    match paidOpt with
                    | none => (.serverError "order row not found", db₂, g₁)
                    | some paid =>
                      match issueTickets paid db₂ g₁ with
                      | (.error e, db₃, g₂) => (.serverError e, db₃, g₂)
                      | (.ok tickets, db₃, g₂) =>
                        let db₄ := decrementAvailableTickets db₃ req.contentId qty
                        (.fulfilled order.id tickets, db₄, g₂)

/-- One line of a `POST /api/purchase/cart` body; `quantity` is a JSON
number or absent. -/
structure CartLineInput where
  contentId : String
  ticketType : String
  quantity : Option ℚ
deriving DecidableEq, Repr

/-- A normalized cart line. -/
structure CartItem where
  contentId : String
  ticketType : String
  quantity : ℚ
deriving DecidableEq, Repr

/-- Cart-line normalization of the checkout handler:
`quantity: Math.max(1, Math.min(10, Number(it.quantity || 1)))`. -/
def normCartCheckout (it : CartLineInput) : CartItem :=
  { contentId := it.contentId, ticketType := it.ticketType
    quantity := max 1 (min 10 (jsOrNum it.quantity 1)) }

/-- Cart-line normalization of the quote handler (textually the same
expression at the quote site). -/
def normCartQuote (it : CartLineInput) : CartItem :=
  { contentId := it.contentId, ticketType := it.ticketType
    quantity := max 1 (min 10 (jsOrNum it.quantity 1)) }

/-- One entry of the checkout handler's `lineDetails` array. -/
structure LineDetail where
  contentId : String
  ticketType : String
  quantity : ℚ
  unitCents : ℚ
  totalCents : ℚ
  title : String
deriving DecidableEq, Repr

/-- Errors of the cart validation loops (`return res.status(404/400)`). -/
inductive CartErr where
  | notFound (msg : String)
  | badRequest (msg : String)
deriving DecidableEq, Repr

/-- The checkout handler's validation loop: resolve content (404), resolve
unit price (400 invalid ticket type), check availability (400 Disponibilità
insufficiente), accumulate `subtotal` and `lineDetails`.  Read-only. -/
def validateCartLoop (db : Db) : List CartItem → ℚ → List LineDetail →
    Except CartErr (ℚ × List LineDetail)
  | [], subtotal, acc => .ok (subtotal, acc)
  | it :: rest, subtotal, acc =>
    match getContentById db it.contentId with
    | none => .error (.notFound ("Content not found: " ++ it.contentId))
    | some content =>
      match resolvePrice content it.ticketType with
      | none => .error (.badRequest ("Invalid ticket type for content " ++ content.title))
      | some unit =>
        let available := if content.availableTickets = 0 then 0 else content.availableTickets
        if ¬ content.unlimitedTickets ∧ available < it.quantity then
          .error (.badRequest ("Disponibilità insufficiente per " ++ content.title))
        else
          let unitCents : ℚ := (jsRound (unit * 100) : ℤ)
          let totalCents := unitCents * it.quantity
          validateCartLoop db rest (subtotal + totalCents)
            (acc ++ [{ contentId := it.contentId, ticketType := it.ticketType
                       quantity := it.quantity, unitCents := unitCents
                       totalCents := totalCents, title := content.title }])

/-- The quote handler's validation loop: same as the checkout one except
that it performs no availability check. -/
def validateQuoteLoop (db : Db) : List CartItem → ℚ → List LineDetail →
    Except CartErr (ℚ × List LineDetail)
  | [], subtotal, acc => .ok (subtotal, acc)
  | it :: rest, subtotal, acc =>
    match getContentById db it.contentId with
    | none => .error (.notFound ("Content not found: " ++ it.contentId))
    | some content =>
      match resolvePrice content it.ticketType with
      | none => .error (.badRequest ("Invalid ticket type for content " ++ content.title))
      | some unit =>
        let unitCents : ℚ := (jsRound (unit * 100) : ℤ)
        let totalCents := unitCents * it.quantity
        validateQuoteLoop db rest (subtotal + totalCents)
          (acc ++ [{ contentId := it.contentId, ticketType := it.ticketType
                     quantity := it.quantity, unitCents := unitCents
                     totalCents := totalCents, title := content.title }])

/-- The checkout handler's order-creation loop: one `createOrderInGroup`
per line detail, collecting the created rows. -/
def createOrdersLoop (groupId : String) (userId : Option String) (email : String) :
    List LineDetail → Db → Gen → List Order → Except String (List Order) × Db × Gen
  | [], db, g, acc => (.ok acc, db, g)
  | line :: rest, db, g, acc =>
    let (oid, g₁) := g.nextId
    let (ordOpt, db₁) :=
      createOrderInGroup db groupId oid line.contentId userId email line.ticketType
        line.quantity line.totalCents
    match ordOpt with
    | none => (.error "order row not found", db₁, g₁)
    | some ord => createOrdersLoop groupId userId email rest db₁ g₁ (acc ++ [ord])

/-- The per-order fulfillment loop
(`setOrderPaid` / `issueTickets` / `decrementAvailableTickets`), textually
identical in the cart manual fallback and in the webhook group path.  An
`issueTickets` failure aborts the loop with the database as updated so
far. -/
def fulfillOrdersLoop : List Order → Db → Gen → List Ticket →
    Except String (List Ticket) × Db × Gen
  | [], db, g, acc => (.ok acc, db, g)
  | ord :: rest, db, g, acc =>
    let (paidOpt, db₁) := setOrderPaid db ord.id
    match paidOpt with
    | none => (.error "order row not found", db₁, g)
    | some paidItem =>
      match issueTickets paidItem db₁ g with
      | (.error e, db₂, g₁) => (.error e, db₂, g₁)
      | (.ok t, db₂, g₁) =>
        let db₃ := decrementAvailableTickets db₂ ord.contentId
          (if ord.quantity = 0 then 0 else ord.quantity)
        fulfillOrdersLoop rest db₃ g₁ (acc ++ t)

/-- Request body of `POST /api/purchase/cart`. -/
structure CartReq where
  cart : List CartLineInput
  method : Option String
  buyerEmail : Option String
deriving DecidableEq, Repr

/-- Outcome of `POST /api/purchase/cart`. -/
inductive CartResult where
  | badRequest (msg : String)
  | notFound (msg : String)
  | stripeUnavailable (groupId : String)
  | checkoutSession (groupId : String) (url : String) (breakdown : FeeBreakdown)
  | fulfilled (groupId : String) (tickets : List Ticket) (breakdown : FeeBreakdown)
  | serverError (msg : String)
deriving DecidableEq, Repr

/-- `POST /api/purchase/cart` (routes.ts): empty-cart check, buyer email
resolution, normalization, validation loop, fee computation, group and
order creation, then dispatch on `(method || 'stripe').toLowerCase()` —
only `'stripe'` branches to the gateway; every other method falls through
to the manual settlement block. -/
def postPurchaseCart (env : Env) (s : Settings) (auth : Option (String × String))
    (req : CartReq) (db : Db) (g : Gen) : CartResult × Db × Gen :=
  if req.cart = [] then (.badRequest "Cart vuoto", db, g)
  else
    let userId := auth.map Prod.fst
    match resolveEmail auth req.buyerEmail with
    | none => (.badRequest "buyerEmail required for guests", db, g)
    | some email =>
      let norm := req.cart.map normCartCheckout
      match validateCartLoop db norm 0 [] with
      | .error (.notFound m) => (.notFound m, db, g)
      | .error (.badRequest m) => (.badRequest m, db, g)
      | .ok (subtotal, lineDetails) =>
        let bd := cartFeeBreakdown subtotal s
        let (gid, g₁) := g.nextId
        let (groupOpt, db₁) :=
          createOrderGroup db gid userId email bd.subtotal bd.serviceFee bd.paymentFee
            bd.tax bd.total
        match groupOpt with
        | none => (.serverError "group row not found", db₁, g₁)
        | some group =>
          match createOrdersLoop group.id userId email lineDetails db₁ g₁ [] with
          | (.error e, db₂, g₂) => (.serverError e, db₂, g₂)
          | (.ok orders, db₂, g₂) =>
            let payMethod := jsToLower (jsOrStr req.method "stripe")
            if payMethod = "stripe" then
              if ¬ env.stripeConfigured then
                (.stripeUnavailable group.id, db₂, g₂)
              else
                let db₃ := setOrderGroupStripeSession db₂ group.id env.sessionId
                (.checkoutSession group.id env.sessionUrl bd, db₃, g₂)
            else
              let (_, db₃) := setOrderGroupPaid db₂ group.id
              match fulfillOrdersLoop orders db₃ g₂ [] with
              | (.error e, db₄, g₃) => (.serverError e, db₄, g₃)
              | (.ok allTickets, db₄, g₃) =>
                (.fulfilled group.id allTickets bd, db₄, g₃)

/-- Outcome of `POST /api/purchase/cart/quote`. -/
inductive QuoteResult where
  | badRequest (msg : String)
  | notFound (msg : String)
  | breakdown (bd : FeeBreakdown)
deriving DecidableEq, Repr

/-- `POST /api/purchase/cart/quote` (routes.ts): normalization, validation
without availability check, fee computation; creates nothing. -/
def postPurchaseCartQuote (s : Settings) (req : CartReq) (db : Db) : QuoteResult :=
  if req.cart = [] then .badRequest "Cart vuoto"
  else
    let norm := req.cart.map normCartQuote
    match validateQuoteLoop db norm 0 [] with
    | .error (.notFound m) => .notFound m
    | .error (.badRequest m) => .badRequest m
    | .ok (subtotal, _) => .breakdown (quoteFeeBreakdown subtotal s)

/-- The single-order fallback of the `checkout.session.completed` webhook
branch: fulfill the order found by session id unless it is already
`'paid'`; storage errors are caught and swallowed by the handler's
`try/catch`. -/
def webhookSingleFallback (sessionId : String) (db : Db) (g : Gen) : Db × Gen :=
  match getOrderByStripeSession db sessionId with
  | none => (db, g)
  | some order =>
    if order.status ≠ "paid" then
      let (paidOpt, db₁) := setOrderPaid db order.id
      match paidOpt with
      | none => (db₁, g)
      | some paid =>
        match issueTickets paid db₁ g with
        | (.error _, db₂, g₁) => (db₂, g₁)
        | (.ok _, db₂, g₁) =>
          let db₃ := decrementAvailableTickets db₂ order.contentId
            (if order.quantity = 0 then 0 else order.quantity)
          (db₃, g₁)
    else (db, g)

/-- The `checkout.session.completed` branch of `POST /api/stripe/webhook`:
try the order-group path first (skipped when the group is already
`'paid'`), else fall back to the single-order path.  Fulfillment errors are
caught and logged; the event is acknowledged either way. -/
def webhookCheckoutCompleted (sessionId : String) (db : Db) (g : Gen) : Db × Gen :=
  match getOrderGroupByStripeSession db sessionId with
  | some group =>
    if group.status ≠ "paid" then
      let (_, db₁) := setOrderGroupPaid db group.id
      let orders := getOrdersByGroupId db₁ group.id
      let (_, db₂, g₁) := fulfillOrdersLoop orders db₁ g []
      (db₂, g₁)
    else webhookSingleFallback sessionId db g
  | none => webhookSingleFallback sessionId db g

lemma jsRound_intCast (z : ℤ) : jsRound (z : ℚ) = z := by
  unfold jsRound
  rw [add_comm]
  rw [Int.floor_add_int]
  norm_num

lemma jsOrNum_zero (o : Option ℚ) : jsOrNum o 0 = o.getD 0 := by
  cases o with
  | none => rfl
  | some q =>
    by_cases h : q = 0 <;> simp [jsOrNum, h]

lemma ite_zero_self (x : ℚ) : (if x = 0 then (0 : ℚ) else x) = x := by
  split <;> simp_all

/-! ## Claim C1 -/

/-- C1: for every subtotal and every settings value (with the fixed-cent
fields integral, as the claim's unit `cents` states), the fee breakdown
computed by the cart checkout equals the spec's staged formula, the quote
endpoint computes the same breakdown, `total` is the sum of the stages, and
the worked example (settings feeFixedCents 100, feePercent 5,
paymentFeeFixedCents 0, paymentFeePercent 2, taxPercent 22; subtotal 3500)
gives serviceFee 275, paymentFee 76, tax 847, total 4698. -/
theorem fee_breakdown_matches_staged_formula (subtotal : ℚ) (s : Settings)
    (hFix : ∃ z : ℤ, s.feeFixedCents.getD 0 = (z : ℚ))
    (hPayFix : ∃ z : ℤ, s.paymentFeeFixedCents.getD 0 = (z : ℚ)) :
    cartFeeBreakdown subtotal s = specStagedBreakdown subtotal s ∧
    quoteFeeBreakdown subtotal s = cartFeeBreakdown subtotal s ∧
    (cartFeeBreakdown subtotal s).total
      = (cartFeeBreakdown subtotal s).subtotal + (cartFeeBreakdown subtotal s).serviceFee
        + (cartFeeBreakdown subtotal s).paymentFee + (cartFeeBreakdown subtotal s).tax ∧
    cartFeeBreakdown 3500 ⟨some 100, some 5, some 0, some 2, some 22⟩
      = ⟨3500, 275, 76, 847, 4698⟩ := by
  obtain ⟨z1, hz1⟩ := hFix
  obtain ⟨z2, hz2⟩ := hPayFix
  refine ⟨?_, rfl, rfl, ?_⟩
  · unfold cartFeeBreakdown specStagedBreakdown
    simp only [jsOrNum_zero, hz1, hz2, jsRound_intCast]
  · simp only [cartFeeBreakdown, jsOrNum, jsRound]
    norm_num

/-- Witness for C1 at the worked example. -/
theorem fee_breakdown_matches_staged_formula_witness :
    cartFeeBreakdown 3500 ⟨some 100, some 5, some 0, some 2, some 22⟩
      = specStagedBreakdown 3500 ⟨some 100, some 5, some 0, some 2, some 22⟩ ∧
    cartFeeBreakdown 3500 ⟨some 100, some 5, some 0, some 2, some 22⟩
      = ⟨3500, 275, 76, 847, 4698⟩ := by
  have h := fee_breakdown_matches_staged_formula 3500
    ⟨some 100, some 5, some 0, some 2, some 22⟩
    ⟨100, by norm_num⟩ ⟨0, by norm_num⟩
  exact ⟨h.1, h.2.2.2⟩

/-! ## Claim C9 -/

/-- C9: the cart and quote endpoints normalize each line's quantity
identically, clamping it into [1,10]: a missing or below-1 quantity becomes
1, an above-10 quantity becomes 10, and the checkout handler's behaviour
depends on the cart only through the clamped lines (out-of-range quantities
are never rejected). -/
theorem cart_quantity_silently_clamped :
    (∀ it : CartLineInput, normCartQuote it = normCartCheckout it) ∧
    (∀ it : CartLineInput,
      1 ≤ (normCartCheckout it).quantity ∧ (normCartCheckout it).quantity ≤ 10) ∧
    (∀ it : CartLineInput, it.quantity = none → (normCartCheckout it).quantity = 1) ∧
    (∀ (it : CartLineInput) (q : ℚ), it.quantity = some q → q < 1 →
      (normCartCheckout it).quantity = 1) ∧
    (∀ (it : CartLineInput) (q : ℚ), it.quantity = some q → 10 < q →
      (normCartCheckout it).quantity = 10) ∧
    (∀ (env : Env) (s : Settings) (auth : Option (String × String))
      (m be : Option String) (db : Db) (g : Gen) (lines lines₂ : List CartLineInput),
      lines.map normCartCheckout = lines₂.map normCartCheckout →
      (lines = [] ↔ lines₂ = []) →
      postPurchaseCart env s auth ⟨lines, m, be⟩ db g
        = postPurchaseCart env s auth ⟨lines₂, m, be⟩ db g) := by
  refine ⟨fun it => rfl, ?_, ?_, ?_, ?_, ?_⟩
  · intro it
    constructor
    · exact le_max_left 1 _
    · exact max_le (by norm_num) (min_le_left 10 _)
  · intro it h
    simp [normCartCheckout, h, jsOrNum]
  · intro it q h hq
    simp only [normCartCheckout, h, jsOrNum]
    by_cases h0 : q = 0
    · simp [h0]
    · simp only [h0, if_false]
      rw [min_eq_right (le_trans hq.le (by norm_num)), max_eq_left hq.le]
  · intro it q h hq
    have h0 : q ≠ 0 := by intro h0; rw [h0] at hq; norm_num at hq
    simp only [normCartCheckout, h, jsOrNum, h0, if_false]
    rw [min_eq_left hq.le, max_eq_right (by norm_num)]
  · intro env s auth m be db g lines lines₂ hmap hiff
    by_cases hnil : lines = []
    · have hnil₂ : lines₂ = [] := hiff.mp hnil
      rw [hnil, hnil₂]
    · have hnil₂ : lines₂ ≠ [] := fun h => hnil (hiff.mpr h)
      simp only [postPurchaseCart, hnil, hnil₂, if_false, hmap]

/-- Witness for C9: quantity 0 is clamped to 1 and quantity 99 to 10. -/
theorem cart_quantity_silently_clamped_witness :
    (normCartCheckout ⟨"X", "standard", some 0⟩).quantity = 1 ∧
    (normCartCheckout ⟨"X", "standard", some 99⟩).quantity = 10 := by
  constructor
  · exact cart_quantity_silently_clamped.2.2.2.1 ⟨"X", "standard", some 0⟩ 0 rfl (by norm_num)
  · exact cart_quantity_silently_clamped.2.2.2.2.1 ⟨"X", "standard", some 99⟩ 99 rfl (by norm_num)

/-! ## Claim C3 -/

/-- A sequence of `decrementAvailableTickets` calls. -/
def applyDecrements (db : Db) : List (String × ℚ) → Db
  | [] => db
  | op :: rest => applyDecrements (decrementAvailableTickets db op.1 op.2) rest

lemma decrement_preserves_nonneg (db : Db) (cid : String) (q : ℚ)
    (h : ∀ c ∈ db.contents, 0 ≤ c.availableTickets) :
    ∀ c ∈ (decrementAvailableTickets db cid q).contents, 0 ≤ c.availableTickets := by
  intro c hc
  rcases hfind : db.contents.find? (fun c => c.id = cid) with _ | row
  · simp only [decrementAvailableTickets, hfind] at hc
    exact h c hc
  · simp only [decrementAvailableTickets, hfind] at hc
    by_cases hu : row.unlimitedTickets = true
    · rw [if_pos hu] at hc
      exact h c hc
    · rw [if_neg hu] at hc
      simp only [List.mem_map] at hc
      obtain ⟨c₀, hc₀, heq⟩ := hc
      by_cases hid : c₀.id = cid
      · rw [if_pos hid] at heq
        rw [← heq]
        exact le_max_left 0 _
      · rw [if_neg hid] at heq
        rw [← heq]
        exact h c₀ hc₀

/-- C3: `decrementAvailableTickets` is a no-op on unlimited content, and no
sequence of decrements drives any content's `availableTickets` below 0. -/
theorem inventory_never_negative :
    (∀ (db : Db) (cid : String) (q : ℚ) (c : Content),
      getContentById db cid = some c → c.unlimitedTickets = true →
      decrementAvailableTickets db cid q = db) ∧
    (∀ (db : Db) (ops : List (String × ℚ)),
      (∀ c ∈ db.contents, 0 ≤ c.availableTickets) →
      ∀ c ∈ (applyDecrements db ops).contents, 0 ≤ c.availableTickets) := by
  constructor
  · intro db cid q c hfind hu
    have hfind' : db.contents.find? (fun c => c.id = cid) = some c := hfind
    simp only [decrementAvailableTickets, hfind', hu, if_true]
  · intro db ops
    induction ops generalizing db with
    | nil => intro h; exact h
    | cons op rest ih =>
      intro h
      exact ih _ (decrement_preserves_nonneg db op.1 op.2 h)

/-- Witness for C3 on a concrete two-content database and a decrement
sequence that crosses zero. -/
theorem inventory_never_negative_witness :
    decrementAvailableTickets
      ⟨[⟨"U", "u", 1, 2, 3, true, 0⟩], [], [], [], 0⟩ "U" 5
      = ⟨[⟨"U", "u", 1, 2, 3, true, 0⟩], [], [], [], 0⟩ ∧
    ∀ c ∈ (applyDecrements ⟨[⟨"X", "x", 1, 2, 3, false, 2⟩], [], [], [], 0⟩
        [("X", 1), ("X", 5)]).contents, 0 ≤ c.availableTickets := by
  constructor
  · exact inventory_never_negative.1 ⟨[⟨"U", "u", 1, 2, 3, true, 0⟩], [], [], [], 0⟩ "U" 5
      ⟨"U", "u", 1, 2, 3, true, 0⟩ (by simp [getContentById, List.find?]) rfl
  · exact inventory_never_negative.2 ⟨[⟨"X", "x", 1, 2, 3, false, 2⟩], [], [], [], 0⟩
      [("X", 1), ("X", 5)] (by simp)

/-! ## Claim C10 -/

/-- C10 counterexample: a request with quantity 0 (which is below 1) is
rejected by the required-fields check with message
`contentId, ticketType, quantity are required`, not with
`Invalid quantity` — 0 is falsy, so it never reaches the quantity
validation. -/
theorem purchase_quantity_zero_counterexample :
    (postPurchase ⟨true, "sess", "url"⟩ none
        ⟨"X", "standard", .numVal 0, none, some "b@x"⟩
        ⟨[], [], [], [], 0⟩ ⟨fun _ => "I", fun _ => "C", 0, 0⟩).1
      = .badRequest "contentId, ticketType, quantity are required" ∧
    (postPurchase ⟨true, "sess", "url"⟩ none
        ⟨"X", "standard", .numVal 0, none, some "b@x"⟩
        ⟨[], [], [], [], 0⟩ ⟨fun _ => "I", fun _ => "C", 0, 0⟩).1
      ≠ .badRequest "Invalid quantity" := by
  constructor
  · simp [postPurchase, qtyTruthy]
  · simp [postPurchase, qtyTruthy]

/-- C10 (amended): on the single-purchase endpoint a truthy quantity that is
non-numeric, below 1 or above 10 fails with 400 `Invalid quantity` and no
order row is created; a falsy quantity (0 or missing) fails the
required-fields check instead, likewise before any order row is created. -/
theorem purchase_quantity_validated (env : Env) (auth : Option (String × String))
    (req : PurchaseReq) (db : Db) (g : Gen)
    (hc : req.contentId ≠ "") (ht : req.ticketType ≠ "") :
    (qtyTruthy req.quantity = true →
      (qtyToNum req.quantity = none
        ∨ (∃ q, qtyToNum req.quantity = some q ∧ (q < 1 ∨ 10 < q))) →
      postPurchase env auth req db g = (.badRequest "Invalid quantity", db, g)) ∧
    (qtyTruthy req.quantity = false →
      postPurchase env auth req db g
        = (.badRequest "contentId, ticketType, quantity are required", db, g)) := by
  constructor
  · intro htr hbad
    have hcond : ¬(req.contentId = "" ∨ req.ticketType = "" ∨ ¬ qtyTruthy req.quantity) := by
      push_neg
      exact ⟨hc, ht, by rw [htr]⟩
    rcases hbad with hnan | ⟨q, hq, hrange⟩
    · simp only [postPurchase, if_neg hcond, hnan]
    · simp only [postPurchase, if_neg hcond, hq]
      rw [if_pos (by rcases hrange with h | h; exact Or.inl h; exact Or.inr h)]
  · intro hfal
    have hcond : req.contentId = "" ∨ req.ticketType = "" ∨ ¬ qtyTruthy req.quantity := by
      refine Or.inr (Or.inr ?_)
      rw [hfal]
      simp
    simp only [postPurchase, if_pos hcond]

/-- Witness for C10's amended theorem: quantity 11 fails `Invalid quantity`
with the database unchanged. -/
theorem purchase_quantity_validated_witness :
    postPurchase ⟨true, "sess", "url"⟩ none
        ⟨"X", "standard", .numVal 11, none, some "b@x"⟩
        ⟨[], [], [], [], 0⟩ ⟨fun _ => "I", fun _ => "C", 0, 0⟩
      = (.badRequest "Invalid quantity", ⟨[], [], [], [], 0⟩,
          ⟨fun _ => "I", fun _ => "C", 0, 0⟩) := by
  exact (purchase_quantity_validated ⟨true, "sess", "url"⟩ none
    ⟨"X", "standard", .numVal 11, none, some "b@x"⟩
    ⟨[], [], [], [], 0⟩ ⟨fun _ => "I", fun _ => "C", 0, 0⟩
    (by simp) (by simp)).1 (by simp [qtyTruthy])
    (Or.inr ⟨11, rfl, Or.inr (by norm_num)⟩)

/-! ## Claim C8 -/

lemma find?_append_singleton {α} (l : List α) (p : α → Bool) (x : α) (hx : p x = true) :
    ∃ y, (l ++ [x]).find? p = some y ∧ p y = true := by
  rcases hf : (l ++ [x]).find? p with _ | y
  · rw [List.find?_eq_none] at hf
    exact absurd hx (by simpa using hf x (by simp))
  · exact ⟨y, rfl, List.find?_some hf⟩

/-- C8 (amended): the single-purchase endpoint rejects methods `paypal` and
`satispay` with 501 `... non ancora supportato`, returning the id of the
order it has just created, which stays `pending`; no ticket is issued and
no inventory is decremented (tickets, contents and groups are unchanged).
The cart endpoint has no such branch: every non-stripe method falls through
to manual settlement (see the counterexample). -/
theorem purchase_unsupported_method (env : Env) (auth : Option (String × String))
    (req : PurchaseReq) (db : Db) (g : Gen) (qty price : ℚ)
    (content : Content) (email : String)
    (hc : req.contentId ≠ "") (ht : req.ticketType ≠ "")
    (hqt : qtyTruthy req.quantity = true) (hq : qtyToNum req.quantity = some qty)
    (hq1 : 1 ≤ qty) (hq10 : qty ≤ 10)
    (hcontent : getContentById db req.contentId = some content)
    (hprice : resolvePrice content req.ticketType = some price)
    (havail : content.unlimitedTickets = true ∨ qty ≤ content.availableTickets)
    (hemail : resolveEmail auth req.buyerEmail = some email)
    (hmethod : jsToLower (jsOrStr req.method "stripe") = "paypal"
             ∨ jsToLower (jsOrStr req.method "stripe") = "satispay") :
    ∃ ord : Order,
      ord.status = "pending" ∧ ord.quantity = qty ∧ ord.contentId = req.contentId ∧
      postPurchase env auth req db g
        = (.notSupported (jsToLower (jsOrStr req.method "stripe") ++ " non ancora supportato")
             ord.id,
           { db with orders := db.orders ++ [ord] }, { g with idCtr := g.idCtr + 1 }) := by
  have hcond : ¬(req.contentId = "" ∨ req.ticketType = "" ∨ ¬ qtyTruthy req.quantity) := by
    push_neg
    exact ⟨hc, ht, by rw [hqt]⟩
  have hrange : ¬(qty < 1 ∨ 10 < qty) := by
    push_neg
    exact ⟨hq1, hq10⟩
  have hav : ¬(¬ content.unlimitedTickets = true ∧ content.availableTickets < qty) := by
    rcases havail with h | h
    · intro hcontra
      exact hcontra.1 h
    · intro hcontra
      exact absurd h (not_le.mpr hcontra.2)
  set oid := g.ids g.idCtr with hoid
  set row : Order :=
    { id := oid, contentId := req.contentId, userId := auth.map Prod.fst
      buyerEmail := email, ticketType := req.ticketType, quantity := qty
      totalAmount := ((jsRound (price * 100) : ℤ) : ℚ) * qty, currency := "eur"
      status := "pending", stripeSessionId := none, groupId := none } with hrow
  obtain ⟨y, hfy, hpy⟩ :=
    find?_append_singleton db.orders (fun o => o.id = oid) row (by simp [hrow])
  have hyid : y.id = oid := by simpa using hpy
  have hstripe : jsToLower (jsOrStr req.method "stripe") ≠ "stripe" := by
    rcases hmethod with h | h <;> rw [h] <;> decide
  refine ⟨row, rfl, rfl, rfl, ?_⟩
  simp only [postPurchase, if_neg hcond, hq, if_neg hrange, hcontent, hprice, if_neg hav,
    hemail, Gen.nextId, createOrder]
  rw [show (db.orders ++ [row]).find? (fun o => o.id = g.ids g.idCtr) = some y from hfy]
  simp only [if_neg hstripe, if_pos hmethod, hyid]

/-- Witness for C8's amended theorem: a concrete paypal purchase gets 501
with a pending order. -/
theorem purchase_unsupported_method_witness :
    ∃ ord : Order,
      ord.status = "pending" ∧ ord.quantity = 1 ∧ ord.contentId = "X" ∧
      postPurchase ⟨true, "sess", "url"⟩ none
          ⟨"X", "standard", .numVal 1, some "paypal", some "b@x"⟩
          ⟨[⟨"X", "Show", 10, 20, 30, false, 5⟩], [], [], [], 0⟩
          ⟨fun _ => "I", fun _ => "C", 0, 0⟩
        = (.notSupported ("paypal" ++ " non ancora supportato") ord.id,
           { contents := [⟨"X", "Show", 10, 20, 30, false, 5⟩],
             orders := [] ++ [ord], groups := [], tickets := [], now := 0 },
           ⟨fun _ => "I", fun _ => "C", 1, 0⟩) := by
  exact purchase_unsupported_method ⟨true, "sess", "url"⟩ none
    ⟨"X", "standard", .numVal 1, some "paypal", some "b@x"⟩
    ⟨[⟨"X", "Show", 10, 20, 30, false, 5⟩], [], [], [], 0⟩
    ⟨fun _ => "I", fun _ => "C", 0, 0⟩ 1 10 ⟨"X", "Show", 10, 20, 30, false, 5⟩ "b@x"
    (by simp) (by simp) (by simp [qtyTruthy]) rfl (by norm_num) (by norm_num)
    (by simp [getContentById, List.find?]) (by simp [resolvePrice])
    (Or.inr (by norm_num)) rfl (Or.inl (by decide))

/-- C8 counterexample: the cart endpoint has no `NotSupported` branch — a
cart checkout with method `paypal` falls through to the manual settlement
block, returns `fulfilled` with an issued ticket, marks the group paid and
decrements inventory from 5 to 4, contradicting the claim that every
checkout naming `paypal` fails with `NotSupported` and issues no tickets. -/
theorem cart_paypal_fulfilled_counterexample :
    (postPurchaseCart ⟨true, "sess", "url"⟩ ⟨none, none, none, none, none⟩ none
        ⟨[⟨"X", "standard", some 1⟩], some "paypal", some "b@x"⟩
        ⟨[⟨"X", "Show", 10, 20, 30, false, 5⟩], [], [], [], 0⟩
        ⟨fun n => if n = 0 then "G" else "O", fun _ => "T", 0, 0⟩).1
      = .fulfilled "G" [⟨"O", "O", "X", "standard", "T", "b@x", none, none⟩]
           ⟨1000, 0, 0, 0, 1000⟩ ∧
    (postPurchaseCart ⟨true, "sess", "url"⟩ ⟨none, none, none, none, none⟩ none
        ⟨[⟨"X", "standard", some 1⟩], some "paypal", some "b@x"⟩
        ⟨[⟨"X", "Show", 10, 20, 30, false, 5⟩], [], [], [], 0⟩
        ⟨fun n => if n = 0 then "G" else "O", fun _ => "T", 0, 0⟩).2.1
      = ⟨[⟨"X", "Show", 10, 20, 30, false, 4⟩],
         [⟨"O", "X", none, "b@x", "standard", 1, 1000, "eur", "paid", none, some "G"⟩],
         [⟨"G", none, "b@x", 1000, 0, 0, 0, 1000, "eur", "paid", none⟩],
         [⟨"O", "O", "X", "standard", "T", "b@x", none, none⟩], 0⟩ := by
  have h1 : (if ("b@x" : String) = "" then (none : Option String) else some "b@x")
      = some "b@x" := by decide
  have h2 : String.mk (List.map Char.toLower
      (if ("paypal" : String) = "" then "stripe" else "paypal").data)
      = "paypal" := by decide
  have h3 : (("paypal" : String) = "stripe") = False := by decide
  constructor <;>
  norm_num [postPurchaseCart, resolveEmail, normCartCheckout, validateCartLoop,
    getContentById, resolvePrice, jsOrNum, jsRound, cartFeeBreakdown, createOrderGroup,
    createOrdersLoop, createOrderInGroup, setOrderGroupPaid, fulfillOrdersLoop,
    setOrderPaid, issueTickets, issueTicketsLoop, decrementAvailableTickets,
    jsToLower, jsOrStr, Gen.nextId, Gen.nextCode, List.find?, h1, h2, h3]

/-! ## Claim C7 -/

lemma issueTicketsLoop_fresh (order : Order) :
    ∀ (n : ℕ) (db : Db) (g : Gen) (acc : List Ticket),
      (∀ i j, i < n → j < n → i ≠ j →
        g.codes (g.codeCtr + i) ≠ g.codes (g.codeCtr + j)) →
      (∀ i, i < n → ∀ t ∈ db.tickets, t.code ≠ g.codes (g.codeCtr + i)) →
      ∃ ts : List Ticket,
        issueTicketsLoop order n db g acc
          = (.ok (acc ++ ts), { db with tickets := db.tickets ++ ts },
             { g with idCtr := g.idCtr + n, codeCtr := g.codeCtr + n }) ∧
        ts.map Ticket.code = (List.range n).map (fun i => g.codes (g.codeCtr + i)) := by
  intro n
  induction n with
  | zero =>
    intro db g acc _ _
    exact ⟨[], by simp [issueTicketsLoop], by simp⟩
  | succ n ih =>
    intro db g acc hdist hfresh
    have hnocoll : db.tickets.any (fun t => t.code = g.codes g.codeCtr) = false := by
      rw [List.any_eq_false]
      intro t ht
      simpa using hfresh 0 (Nat.succ_pos n) t ht
    set t₀ : Ticket :=
      { id := g.ids g.idCtr, orderId := order.id, contentId := order.contentId
        ticketType := order.ticketType, code := g.codes g.codeCtr
        issuedTo := order.buyerEmail, usedAt := none, usedBy := none } with ht₀
    have hstep : issueTicketsLoop order (n + 1) db g acc
        = issueTicketsLoop order n { db with tickets := db.tickets ++ [t₀] }
            { g with idCtr := g.idCtr + 1, codeCtr := g.codeCtr + 1 } (acc ++ [t₀]) := by
      simp only [issueTicketsLoop, Gen.nextCode, Gen.nextId, ht₀]
      rw [hnocoll]
      simp
    obtain ⟨ts, hts, hcodes⟩ := ih { db with tickets := db.tickets ++ [t₀] }
      { g with idCtr := g.idCtr + 1, codeCtr := g.codeCtr + 1 } (acc ++ [t₀])
      (by
        intro i j hi hj hij
        simpa [Nat.add_assoc, Nat.add_comm 1] using
          hdist (i + 1) (j + 1) (by omega) (by omega) (by omega))
      (by
        intro i hi t ht
        rcases List.mem_append.mp ht with hold | hnew
        · simpa [Nat.add_assoc, Nat.add_comm 1] using
            hfresh (i + 1) (by omega) t hold
        · have : t = t₀ := by simpa using hnew
          subst this
          simp only [ht₀]
          have := hdist 0 (i + 1) (by omega) (by omega) (by omega)
          simpa [Nat.add_assoc, Nat.add_comm 1] using this)
    refine ⟨t₀ :: ts, ?_, ?_⟩
    · rw [hstep, hts]
      simp [Nat.add_assoc, Nat.add_comm 1]
    · simp only [List.map_cons, hcodes, List.range_succ_eq_map, List.map_map]
      refine congrArg₂ _ rfl ?_
      apply List.map_congr_left
      intro i _
      simp [Function.comp, Nat.add_assoc, Nat.add_comm 1]

/-- C7 counterexample: with one iteration to run and a generated code that
already exists in the tickets table (`code` is UNIQUE), `issueTickets`
returns the constraint-violation error and inserts nothing — it does not
retry with a fresh code, so a paid order of quantity 1 yields 0 tickets. -/
theorem issue_tickets_collision_counterexample :
    (issueTickets ⟨"O", "X", none, "b@x", "standard", 1, 1000, "eur", "paid", none, none⟩
        ⟨[], [], [], [⟨"T0", "O0", "X", "standard", "T", "a@x", none, none⟩], 0⟩
        ⟨fun _ => "I", fun _ => "T", 0, 0⟩).1
      = .error "UNIQUE constraint failed: tickets.code" ∧
    (issueTickets ⟨"O", "X", none, "b@x", "standard", 1, 1000, "eur", "paid", none, none⟩
        ⟨[], [], [], [⟨"T0", "O0", "X", "standard", "T", "a@x", none, none⟩], 0⟩
        ⟨fun _ => "I", fun _ => "T", 0, 0⟩).2.1.tickets.length = 1 := by
  constructor <;>
  norm_num [issueTickets, issueTicketsLoop, Gen.nextCode, Gen.nextId, List.any]

/-- C7 (amended): `issueTickets` does not retry on a code collision — if the
first generated code already exists, the INSERT fails and the error
propagates with no ticket inserted; when the generated codes are pairwise
distinct and absent from the table, it issues exactly the loop count of
tickets (equal to the order quantity for a natural-number quantity) with
pairwise distinct codes, appended to the table. -/
theorem issue_tickets_no_retry_on_collision (order : Order) (db : Db) (g : Gen) :
    (0 < (max 0 ⌈if order.quantity = 0 then 0 else order.quantity⌉).toNat →
      db.tickets.any (fun t => t.code = g.codes g.codeCtr) = true →
      issueTickets order db g
        = (.error "UNIQUE constraint failed: tickets.code", db,
           { g with idCtr := g.idCtr + 1, codeCtr := g.codeCtr + 1 })) ∧
    (∀ n : ℕ, n = (max 0 ⌈if order.quantity = 0 then 0 else order.quantity⌉).toNat →
      (∀ i j, i < n → j < n → i ≠ j →
        g.codes (g.codeCtr + i) ≠ g.codes (g.codeCtr + j)) →
      (∀ i, i < n → ∀ t ∈ db.tickets, t.code ≠ g.codes (g.codeCtr + i)) →
      ∃ ts : List Ticket,
        issueTickets order db g
          = (.ok ts, { db with tickets := db.tickets ++ ts },
             { g with idCtr := g.idCtr + n, codeCtr := g.codeCtr + n }) ∧
        ts.length = n ∧ (ts.map Ticket.code).Nodup ∧
        (∀ q : ℕ, order.quantity = (q : ℚ) → n = q)) := by
  constructor
  · intro hn hcoll
    unfold issueTickets
    rcases hcnt : (max 0 ⌈if order.quantity = 0 then 0 else order.quantity⌉).toNat with _ | m
    · omega
    · simp only [issueTicketsLoop, Gen.nextCode, Gen.nextId]
      rw [hcoll]
      simp
  · intro n hn hdist hfresh
    obtain ⟨ts, hts, hcodes⟩ := issueTicketsLoop_fresh order n db g [] hdist hfresh
    refine ⟨ts, ?_, ?_, ?_, ?_⟩
    · unfold issueTickets
      rw [← hn, hts]
      simp
    · have := congrArg List.length hcodes
      simpa using this
    · rw [hcodes]
      refine List.Nodup.map_on ?_ (List.nodup_range n)
      intro i hi j hj hij
      by_contra hne
      exact hdist i j (List.mem_range.mp hi) (List.mem_range.mp hj) hne hij
    · intro q hq
      rw [hn, hq]
      rcases Nat.eq_zero_or_pos q with h0 | hpos
      · subst h0
        norm_num
      · have hq0 : ((q : ℚ)) ≠ 0 := by
          exact_mod_cast Nat.pos_iff_ne_zero.mp hpos
        rw [if_neg hq0]
        rw [Int.ceil_natCast]
        omega

/-- Witness for C7's amended theorem: quantity 2 with fresh distinct codes
yields exactly 2 tickets with distinct codes. -/
theorem issue_tickets_no_retry_on_collision_witness :
    ∃ ts : List Ticket,
      issueTickets ⟨"O", "X", none, "b@x", "standard", 2, 1000, "eur", "paid", none, none⟩
          ⟨[], [], [], [], 0⟩ ⟨fun n => Nat.repr n, fun n => Nat.repr n, 0, 0⟩
        = (.ok ts, { contents := [], orders := [], groups := [],
                     tickets := [] ++ ts, now := 0 },
           ⟨fun n => Nat.repr n, fun n => Nat.repr n, 2, 2⟩) ∧
      ts.length = 2 ∧ (ts.map Ticket.code).Nodup ∧
      (∀ q : ℕ, ((2 : ℚ)) = (q : ℚ) → 2 = q) := by
  have h := (issue_tickets_no_retry_on_collision
    ⟨"O", "X", none, "b@x", "standard", 2, 1000, "eur", "paid", none, none⟩
    ⟨[], [], [], [], 0⟩ ⟨fun n => Nat.repr n, fun n => Nat.repr n, 0, 0⟩).2 2
    (by norm_num [issueTickets]; decide)
    (by
      intro i j hi hj hij
      interval_cases i <;> interval_cases j <;> simp_all <;> decide)
    (by simp)
  obtain ⟨ts, hts, hlen, hnodup, hq⟩ := h
  exact ⟨ts, hts, hlen, hnodup, fun q hq' => by exact_mod_cast hq'⟩

/-! ## Claim C5 -/

lemma find?_map_comm {α : Type} (l : List α) (p : α → Bool) (F : α → α)
    (hF : ∀ x, p (F x) = p x) : (l.map F).find? p = (l.find? p).map F := by
  induction l with
  | nil => simp
  | cons a t ih =>
    by_cases hp : p a
    · rw [List.map_cons, List.find?_cons_of_pos _ (by rw [hF]; exact hp),
        List.find?_cons_of_pos _ hp]
      rfl
    · rw [List.map_cons, List.find?_cons_of_neg _ (by rw [hF]; simpa using hp),
        List.find?_cons_of_neg _ (by simpa using hp), ih]

/-- C5: redemption semantics of `redeemTicket`.  A missing code fails
`Ticket non trovato`; a wrong `contentId` fails `Ticket non valido per
questo contenuto` leaving the database unchanged; a valid unused code
succeeds, setting `used_at` to the clock and `used_by` to the redeemer, and
a second redemption of the same code then fails `Ticket già utilizzato`
leaving the ticket unchanged.  (The `find?`-by-id hypothesis is the primary
key uniqueness of `tickets.id`.) -/
theorem ticket_redemption_single_use :
    (∀ (db : Db) (code cid : String) (u : Option String),
      db.tickets.find? (fun t => t.code = code) = none →
      redeemTicket db code cid u = (.error "Ticket non trovato", db)) ∧
    (∀ (db : Db) (code cid : String) (u : Option String) (t : Ticket),
      db.tickets.find? (fun x => x.code = code) = some t →
      t.contentId ≠ cid →
      redeemTicket db code cid u = (.error "Ticket non valido per questo contenuto", db)) ∧
    (∀ (db : Db) (code cid : String) (u : Option String) (t : Ticket),
      db.tickets.find? (fun x => x.code = code) = some t →
      t.contentId = cid → t.usedAt = none →
      db.tickets.find? (fun x => x.id = t.id) = some t →
      (redeemTicket db code cid u).1
          = .ok (some { t with usedAt := some db.now, usedBy := u }) ∧
      (redeemTicket db code cid u).2
          = { db with tickets := db.tickets.map (fun x =>
              if x.id = t.id then { x with usedAt := some db.now, usedBy := u } else x) } ∧
      (∀ u' : Option String, redeemTicket (redeemTicket db code cid u).2 code cid u'
          = (.error "Ticket già utilizzato", (redeemTicket db code cid u).2))) := by
  refine ⟨?_, ?_, ?_⟩
  · intro db code cid u hnone
    simp only [redeemTicket, hnone]
  · intro db code cid u t hfind hmismatch
    simp only [redeemTicket, hfind]
    rw [if_pos hmismatch]
  · intro db code cid u t hfind hcid hunused hid
    set F : Ticket → Ticket := fun x =>
      if x.id = t.id then { x with usedAt := some db.now, usedBy := u } else x with hF
    have hFid : ∀ x : Ticket, (F x).id = x.id := by
      intro x
      rw [hF]
      by_cases h : x.id = t.id <;> simp [h]
    have hFcode : ∀ x : Ticket, (F x).code = x.code := by
      intro x
      rw [hF]
      by_cases h : x.id = t.id <;> simp [h]
    have hFt : F t = { t with usedAt := some db.now, usedBy := u } := by
      rw [hF]
      simp
    have hok1 : (redeemTicket db code cid u).1
        = .ok ((db.tickets.map F).find? (fun x => x.id = t.id)) := by
      simp only [redeemTicket, hfind]
      rw [if_neg (by simp [hcid]), if_neg (by simp [hunused])]
    have hdb : (redeemTicket db code cid u).2
        = { db with tickets := db.tickets.map F } := by
      simp only [redeemTicket, hfind]
      rw [if_neg (by simp [hcid]), if_neg (by simp [hunused])]
    have hfid : (db.tickets.map F).find? (fun x => x.id = t.id)
        = some { t with usedAt := some db.now, usedBy := u } := by
      rw [find?_map_comm db.tickets (fun x => x.id = t.id) F
        (by intro x; simp [hFid x]), hid]
      simp [hFt]
    have hfcode : (db.tickets.map F).find? (fun x => x.code = code)
        = some { t with usedAt := some db.now, usedBy := u } := by
      rw [find?_map_comm db.tickets (fun x => x.code = code) F
        (by intro x; simp [hFcode x]), hfind]
      simp [hFt]
    refine ⟨by rw [hok1, hfid], hdb, ?_⟩
    intro u'
    rw [hdb]
    simp only [redeemTicket, hfcode]
    rw [if_neg (by simp [hcid]), if_pos (by simp)]

/-- Witness for C5 on a one-ticket database: redemption succeeds once and
fails `Ticket già utilizzato` the second time. -/
theorem ticket_redemption_single_use_witness :
    (redeemTicket ⟨[], [], [], [⟨"T1", "O1", "X", "standard", "CODE", "b@x", none, none⟩], 7⟩
        "CODE" "X" (some "staff")).1
      = .ok (some ⟨"T1", "O1", "X", "standard", "CODE", "b@x", some 7, some "staff"⟩) ∧
    (∀ u' : Option String,
      redeemTicket (redeemTicket
          ⟨[], [], [], [⟨"T1", "O1", "X", "standard", "CODE", "b@x", none, none⟩], 7⟩
          "CODE" "X" (some "staff")).2 "CODE" "X" u'
        = (.error "Ticket già utilizzato",
           (redeemTicket ⟨[], [], [], [⟨"T1", "O1", "X", "standard", "CODE", "b@x", none, none⟩], 7⟩
              "CODE" "X" (some "staff")).2)) := by
  have h := ticket_redemption_single_use.2.2
    ⟨[], [], [], [⟨"T1", "O1", "X", "standard", "CODE", "b@x", none, none⟩], 7⟩
    "CODE" "X" (some "staff") ⟨"T1", "O1", "X", "standard", "CODE", "b@x", none, none⟩
    (by decide) (by decide) (by decide) (by decide)
  exact ⟨h.1, h.2.2⟩

/-! ## Claim C4 -/

lemma validateCartLoop_insufficient (db : Db) :
    ∀ (items : List CartItem) (subtotal : ℚ) (acc : List LineDetail),
      (∀ it ∈ items, ∃ c, getContentById db it.contentId = some c ∧
        (resolvePrice c it.ticketType).isSome) →
      (∃ it ∈ items, ∃ c, getContentById db it.contentId = some c ∧
        c.unlimitedTickets = false ∧ c.availableTickets < it.quantity) →
      ∃ title, validateCartLoop db items subtotal acc
        = .error (.badRequest ("Disponibilità insufficiente per " ++ title)) := by
  intro items
  induction items with
  | nil =>
    intro subtotal acc _ hinsuf
    obtain ⟨it, hmem, _⟩ := hinsuf
    exact absurd hmem (List.not_mem_nil it)
  | cons it rest ih =>
    intro subtotal acc hvalid hinsuf
    obtain ⟨c, hc, hp⟩ := hvalid it (List.mem_cons_self it rest)
    obtain ⟨unit, hu⟩ := Option.isSome_iff_exists.mp hp
    by_cases hcond : ¬ c.unlimitedTickets = true ∧
        (if c.availableTickets = 0 then 0 else c.availableTickets) < it.quantity
    · refine ⟨c.title, ?_⟩
      simp only [validateCartLoop, hc, hu]
      rw [if_pos hcond]
    · have hstep : validateCartLoop db (it :: rest) subtotal acc
          = validateCartLoop db rest
              (subtotal + ((jsRound (unit * 100) : ℤ) : ℚ) * it.quantity)
              (acc ++ [{ contentId := it.contentId, ticketType := it.ticketType
                         quantity := it.quantity, unitCents := ((jsRound (unit * 100) : ℤ) : ℚ)
                         totalCents := ((jsRound (unit * 100) : ℤ) : ℚ) * it.quantity
                         title := c.title }]) := by
        simp only [validateCartLoop, hc, hu]
        rw [if_neg hcond]
      rw [hstep]
      refine ih _ _ (fun x hx => hvalid x (List.mem_cons_of_mem it hx)) ?_
      obtain ⟨w, hwmem, cw, hcw, hwu, hwavail⟩ := hinsuf
      rcases List.mem_cons.mp hwmem with heq | hrest
      · exfalso
        subst heq
        rw [hc] at hcw
        injection hcw with hcc
        subst hcc
        exact hcond ⟨by simp [hwu], by rwa [ite_zero_self]⟩
      · exact ⟨w, hrest, cw, hcw, hwu, hwavail⟩

/-- C4: a cart checkout containing a line whose content is limited and has
fewer available tickets than requested (all lines resolving to existing
content with a valid tier) fails with the insufficient-inventory 400, and
the database and generator are returned unchanged — no group, order or
ticket row is created and no inventory is decremented. -/
theorem cart_checkout_insufficient_inventory (env : Env) (s : Settings)
    (auth : Option (String × String)) (req : CartReq) (db : Db) (g : Gen)
    (hne : req.cart ≠ [])
    (hemail : ∃ e, resolveEmail auth req.buyerEmail = some e)
    (hvalid : ∀ it ∈ req.cart.map normCartCheckout,
      ∃ c, getContentById db it.contentId = some c ∧ (resolvePrice c it.ticketType).isSome)
    (hinsuf : ∃ it ∈ req.cart.map normCartCheckout,
      ∃ c, getContentById db it.contentId = some c ∧
        c.unlimitedTickets = false ∧ c.availableTickets < it.quantity) :
    ∃ title, postPurchaseCart env s auth req db g
      = (.badRequest ("Disponibilità insufficiente per " ++ title), db, g) := by
  obtain ⟨e, he⟩ := hemail
  obtain ⟨title, hloop⟩ := validateCartLoop_insufficient db
    (req.cart.map normCartCheckout) 0 [] hvalid hinsuf
  refine ⟨title, ?_⟩
  simp only [postPurchaseCart, if_neg hne, he, hloop]

/-- Witness for C4: the spec's scenario — quantity 2 against 1 available
ticket fails with `Disponibilità insufficiente` and leaves the state
unchanged. -/
theorem cart_checkout_insufficient_inventory_witness :
    ∃ title, postPurchaseCart ⟨true, "sess", "url"⟩ ⟨none, none, none, none, none⟩ none
        ⟨[⟨"X", "standard", some 2⟩], none, some "b@x"⟩
        ⟨[⟨"X", "Show", 10, 20, 30, false, 1⟩], [], [], [], 0⟩
        ⟨fun _ => "I", fun _ => "C", 0, 0⟩
      = (.badRequest ("Disponibilità insufficiente per " ++ title),
         ⟨[⟨"X", "Show", 10, 20, 30, false, 1⟩], [], [], [], 0⟩,
         ⟨fun _ => "I", fun _ => "C", 0, 0⟩) := by
  refine cart_checkout_insufficient_inventory ⟨true, "sess", "url"⟩
    ⟨none, none, none, none, none⟩ none
    ⟨[⟨"X", "standard", some 2⟩], none, some "b@x"⟩
    ⟨[⟨"X", "Show", 10, 20, 30, false, 1⟩], [], [], [], 0⟩
    ⟨fun _ => "I", fun _ => "C", 0, 0⟩
    (by simp) ⟨"b@x", by decide⟩ ?_ ?_
  · intro it hit
    simp only [List.map_cons, List.map_nil, List.mem_singleton] at hit
    subst hit
    exact ⟨⟨"X", "Show", 10, 20, 30, false, 1⟩,
      by simp [getContentById, List.find?, normCartCheckout],
      by simp [resolvePrice, normCartCheckout]⟩
  · refine ⟨normCartCheckout ⟨"X", "standard", some 2⟩, by simp,
      ⟨"X", "Show", 10, 20, 30, false, 1⟩,
      by simp [getContentById, List.find?, normCartCheckout], rfl, ?_⟩
    norm_num [normCartCheckout, jsOrNum]

/-! ## Claim C2 -/

lemma issueTicketsLoop_frame (order : Order) :
    ∀ (n : ℕ) (db : Db) (g : Gen) (acc : List Ticket),
      (issueTicketsLoop order n db g acc).2.1.orders = db.orders ∧
      (issueTicketsLoop order n db g acc).2.1.groups = db.groups ∧
      (issueTicketsLoop order n db g acc).2.1.contents = db.contents := by
  intro n
  induction n with
  | zero =>
    intro db g acc
    exact ⟨rfl, rfl, rfl⟩
  | succ n ih =>
    intro db g acc
    by_cases hcoll : db.tickets.any (fun t => t.code = g.codes g.codeCtr) = true
    · simp only [issueTicketsLoop, Gen.nextCode, Gen.nextId]
      rw [hcoll]
      exact ⟨rfl, rfl, rfl⟩
    · have hcoll' : db.tickets.any (fun t => t.code = g.codes g.codeCtr) = false :=
        Bool.eq_false_iff.mpr hcoll
      simp only [issueTicketsLoop, Gen.nextCode, Gen.nextId]
      rw [hcoll']
      simpa using ih _ _ _

lemma issueTickets_frame (order : Order) (db : Db) (g : Gen) :
    (issueTickets order db g).2.1.orders = db.orders ∧
    (issueTickets order db g).2.1.groups = db.groups ∧
    (issueTickets order db g).2.1.contents = db.contents := by
  unfold issueTickets
  exact issueTicketsLoop_frame order _ db g []

lemma decrement_frame (db : Db) (cid : String) (q : ℚ) :
    (decrementAvailableTickets db cid q).orders = db.orders ∧
    (decrementAvailableTickets db cid q).groups = db.groups ∧
    (decrementAvailableTickets db cid q).tickets = db.tickets := by
  rcases hfind : db.contents.find? (fun c => c.id = cid) with _ | row
  · simp [decrementAvailableTickets, hfind]
  · simp only [decrementAvailableTickets, hfind]
    by_cases hu : row.unlimitedTickets = true
    · rw [if_pos hu]
      exact ⟨rfl, rfl, rfl⟩
    · rw [if_neg hu]
      exact ⟨rfl, rfl, rfl⟩

lemma map_sessionId_statusUpd (l : List Order) (oid : String) :
    (l.map (fun o => if o.id = oid then { o with status := "paid" } else o)).map
        (fun o => o.stripeSessionId)
      = l.map (fun o => o.stripeSessionId) := by
  rw [List.map_map]
  apply List.map_congr_left
  intro o _
  by_cases h : o.id = oid <;> simp [h]

lemma map_sessionId_groupStatusUpd (l : List Order) (gid : String) :
    (l.map (fun o => if o.groupId = some gid then { o with status := "paid" } else o)).map
        (fun o => o.stripeSessionId)
      = l.map (fun o => o.stripeSessionId) := by
  rw [List.map_map]
  apply List.map_congr_left
  intro o _
  by_cases h : o.groupId = some gid <;> simp [h]

lemma fulfillOrdersLoop_frame :
    ∀ (os : List Order) (db : Db) (g : Gen) (acc : List Ticket),
      (fulfillOrdersLoop os db g acc).2.1.groups = db.groups ∧
      (fulfillOrdersLoop os db g acc).2.1.orders.map (fun o => o.stripeSessionId)
        = db.orders.map (fun o => o.stripeSessionId) := by
  intro os
  induction os with
  | nil =>
    intro db g acc
    exact ⟨rfl, rfl⟩
  | cons ord rest ih =>
    intro db g acc
    rcases hpo : (setOrderPaid db ord.id).1 with _ | paid
    · simp only [fulfillOrdersLoop, setOrderPaid] at hpo ⊢
      simp only [hpo]
      exact ⟨by trivial, map_sessionId_statusUpd db.orders ord.id⟩
    · rcases hIT : issueTickets paid (setOrderPaid db ord.id).2 g with ⟨res, dbB, gB⟩
      have hfr := issueTickets_frame paid (setOrderPaid db ord.id).2 g
      rw [hIT] at hfr
      rcases res with e | ts
      · simp only [fulfillOrdersLoop, setOrderPaid] at hpo hIT ⊢
        simp only [hpo, hIT]
        refine ⟨by rw [hfr.2.1]; rfl, ?_⟩
        rw [hfr.1]
        simp only [setOrderPaid]
        exact map_sessionId_statusUpd db.orders ord.id
      · have hdec := decrement_frame dbB ord.contentId
          (if ord.quantity = 0 then 0 else ord.quantity)
        have hrest := ih (decrementAvailableTickets dbB ord.contentId
          (if ord.quantity = 0 then 0 else ord.quantity)) gB (acc ++ ts)
        simp only [fulfillOrdersLoop, setOrderPaid] at hpo hIT ⊢
        simp only [hpo, hIT]
        constructor
        · rw [hrest.1, hdec.2.1, hfr.2.1]; rfl
        · rw [hrest.2, hdec.1, hfr.1]
          simp only [setOrderPaid]
          exact map_sessionId_statusUpd db.orders ord.id

lemma find?_sessionId_none_of_map_eq (l l₂ : List Order) (sid : String)
    (hmap : l₂.map (fun o => o.stripeSessionId) = l.map (fun o => o.stripeSessionId))
    (hnone : l.find? (fun o => o.stripeSessionId = some sid) = none) :
    l₂.find? (fun o => o.stripeSessionId = some sid) = none := by
  rw [List.find?_eq_none] at hnone ⊢
  intro o ho
  have hmem : o.stripeSessionId ∈ l₂.map (fun o => o.stripeSessionId) :=
    List.mem_map_of_mem _ ho
  rw [hmap] at hmem
  obtain ⟨o₀, ho₀, heq⟩ := List.mem_map.mp hmem
  have := hnone o₀ ho₀
  simp only [decide_eq_true_eq] at this ⊢
  rw [← heq]
  exact this

lemma webhookSingleFallback_state (sid : String) (db : Db) (g : Gen) (ord : Order)
    (ho : getOrderByStripeSession db sid = some ord) (hps : ord.status ≠ "paid") :
    ((webhookSingleFallback sid db g).1).groups = db.groups ∧
    ((webhookSingleFallback sid db g).1).orders
      = db.orders.map (fun o => if o.id = ord.id then { o with status := "paid" } else o) := by
  simp only [webhookSingleFallback, ho]
  rw [if_pos hps]
  rcases hpo : (setOrderPaid db ord.id).1 with _ | paid
  · simp only [setOrderPaid] at hpo ⊢
    exact ⟨trivial, trivial⟩
  · rcases hIT : issueTickets paid (setOrderPaid db ord.id).2 g with ⟨res, dbB, gB⟩
    have hfr := issueTickets_frame paid (setOrderPaid db ord.id).2 g
    rw [hIT] at hfr
    dsimp only at hfr
    rcases res with e | ts
    · simp only [hIT]
      exact ⟨by rw [hfr.2.1]; rfl, by rw [hfr.1]; rfl⟩
    · have hdec := decrement_frame dbB ord.contentId
        (if ord.quantity = 0 then 0 else ord.quantity)
      simp only [hIT]
      exact ⟨by rw [hdec.2.1, hfr.2.1]; rfl, by rw [hdec.1, hfr.1]; rfl⟩

lemma webhookSingleFallback_paid_state (sid : String) (db : Db) (g : Gen) :
    (∀ ord, getOrderByStripeSession db sid = some ord → ord.status = "paid" →
      webhookSingleFallback sid db g = (db, g)) ∧
    (getOrderByStripeSession db sid = none → webhookSingleFallback sid db g = (db, g)) := by
  constructor
  · intro ord ho hps
    simp only [webhookSingleFallback, ho]
    rw [if_neg (by simp [hps])]
  · intro ho
    simp only [webhookSingleFallback, ho]

/-- C2: delivering the same `checkout.session.completed` event twice for one
session id leaves the state exactly as after the first delivery — the
group (or standalone order) is `paid` after the first delivery, so the
second is acknowledged without issuing tickets, decrementing inventory or
changing any row.  The hypothesis says the session id does not resolve to
both a group and a standalone order at once (a session is keyed to exactly
one of them). -/
theorem webhook_second_delivery_acknowledged_without_reprocessing
    (db : Db) (g g' : Gen) (sid : String)
    (h : getOrderGroupByStripeSession db sid = none
       ∨ getOrderByStripeSession db sid = none) :
    (webhookCheckoutCompleted sid (webhookCheckoutCompleted sid db g).1 g').1
      = (webhookCheckoutCompleted sid db g).1 := by
  rcases hg : getOrderGroupByStripeSession db sid with _ | grp
  · -- no group carries the session id: single-order fallback
    rcases ho : getOrderByStripeSession db sid with _ | ord
    · have hfirst : webhookCheckoutCompleted sid db g = (db, g) := by
        simp only [webhookCheckoutCompleted, hg]
        exact (webhookSingleFallback_paid_state sid db g).2 ho
      rw [hfirst]
      simp only [webhookCheckoutCompleted, hg]
      rw [(webhookSingleFallback_paid_state sid db g').2 ho]
    · by_cases hps : ord.status = "paid"
      · have hfirst : webhookCheckoutCompleted sid db g = (db, g) := by
          simp only [webhookCheckoutCompleted, hg]
          exact (webhookSingleFallback_paid_state sid db g).1 ord ho hps
        rw [hfirst]
        simp only [webhookCheckoutCompleted, hg]
        rw [(webhookSingleFallback_paid_state sid db g').1 ord ho hps]
      · have hfirst : (webhookCheckoutCompleted sid db g).1
            = (webhookSingleFallback sid db g).1 := by
          simp only [webhookCheckoutCompleted, hg]
        obtain ⟨hgroups, horders⟩ := webhookSingleFallback_state sid db g ord ho hps
        rw [hfirst]
        have hg₂ : getOrderGroupByStripeSession (webhookSingleFallback sid db g).1 sid
            = none := by
          unfold getOrderGroupByStripeSession at hg ⊢
          rw [hgroups, hg]
        have hpF : ∀ x : Order,
            (decide ((if x.id = ord.id then { x with status := "paid" } else x).stripeSessionId
              = some sid))
            = (decide (x.stripeSessionId = some sid)) := by
          intro x
          by_cases hx : x.id = ord.id <;> simp [hx]
        have hfind₂ : getOrderByStripeSession (webhookSingleFallback sid db g).1 sid
            = some { ord with status := "paid" } := by
          unfold getOrderByStripeSession at ho ⊢
          rw [horders, find?_map_comm db.orders (fun o => o.stripeSessionId = some sid)
            (fun o => if o.id = ord.id then { o with status := "paid" } else o) hpF, ho]
          simp
        simp only [webhookCheckoutCompleted, hg₂]
        rw [(webhookSingleFallback_paid_state sid (webhookSingleFallback sid db g).1 g').1
          _ hfind₂ rfl]
  · -- the session id belongs to a group; then no order carries it
    have ho : getOrderByStripeSession db sid = none := by
      rcases h with h | h
      · rw [hg] at h
        exact absurd h (by simp)
      · exact h
    by_cases hps : grp.status = "paid"
    · have hfirst : webhookCheckoutCompleted sid db g = (db, g) := by
        simp only [webhookCheckoutCompleted, hg]
        rw [if_neg (by simp [hps])]
        exact (webhookSingleFallback_paid_state sid db g).2 ho
      rw [hfirst]
      simp only [webhookCheckoutCompleted, hg]
      rw [if_neg (by simp [hps])]
      rw [(webhookSingleFallback_paid_state sid db g').2 ho]
    · -- group fulfillment path
      rcases hR : fulfillOrdersLoop
          (getOrdersByGroupId (setOrderGroupPaid db grp.id).2 grp.id)
          (setOrderGroupPaid db grp.id).2 g [] with ⟨res, dbF, gF⟩
      have hfl := fulfillOrdersLoop_frame
        (getOrdersByGroupId (setOrderGroupPaid db grp.id).2 grp.id)
        (setOrderGroupPaid db grp.id).2 g []
      rw [hR] at hfl
      have hfirst : (webhookCheckoutCompleted sid db g).1 = dbF := by
        simp only [webhookCheckoutCompleted, hg]
        rw [if_pos hps]
        simp only [setOrderGroupPaid] at hR ⊢
        simp only [hR]
      rw [hfirst]
      have hFg : ∀ x : OrderGroup,
          (decide ((if x.id = grp.id then { x with status := "paid" } else x).stripeSessionId
            = some sid))
          = (decide (x.stripeSessionId = some sid)) := by
        intro x
        by_cases hx : x.id = grp.id <;> simp [hx]
      have hgroupsF : dbF.groups
          = db.groups.map (fun x => if x.id = grp.id then { x with status := "paid" } else x) := by
        rw [hfl.1]; rfl
      have hg₂ : getOrderGroupByStripeSession dbF sid = some { grp with status := "paid" } := by
        unfold getOrderGroupByStripeSession at hg ⊢
        rw [hgroupsF, find?_map_comm db.groups (fun x => x.stripeSessionId = some sid)
          (fun x => if x.id = grp.id then { x with status := "paid" } else x) hFg, hg]
        simp
      have hviewF : dbF.orders.map (fun o => o.stripeSessionId)
          = db.orders.map (fun o => o.stripeSessionId) := by
        rw [hfl.2]
        simp only [setOrderGroupPaid]
        exact map_sessionId_groupStatusUpd db.orders grp.id
      have ho₂ : getOrderByStripeSession dbF sid = none := by
        unfold getOrderByStripeSession at ho ⊢
        exact find?_sessionId_none_of_map_eq db.orders dbF.orders sid hviewF ho
      simp only [webhookCheckoutCompleted, hg₂]
      rw [if_neg (by simp)]
      rw [(webhookSingleFallback_paid_state sid dbF g').2 ho₂]

/-- Witness for C2: a concrete pending group with a Stripe session; the
second webhook delivery leaves the state of the first delivery unchanged. -/
theorem webhook_second_delivery_acknowledged_without_reprocessing_witness :
    (webhookCheckoutCompleted "sess"
        (webhookCheckoutCompleted "sess"
          ⟨[⟨"X", "Show", 10, 20, 30, false, 5⟩],
           [⟨"O1", "X", none, "b@x", "standard", 1, 1000, "eur", "pending", none, some "G"⟩],
           [⟨"G", none, "b@x", 1000, 0, 0, 0, 1000, "eur", "pending", some "sess"⟩],
           [], 0⟩
          ⟨fun _ => "I", fun _ => "C", 0, 0⟩).1
        ⟨fun _ => "J", fun _ => "D", 0, 0⟩).1
      = (webhookCheckoutCompleted "sess"
          ⟨[⟨"X", "Show", 10, 20, 30, false, 5⟩],
           [⟨"O1", "X", none, "b@x", "standard", 1, 1000, "eur", "pending", none, some "G"⟩],
           [⟨"G", none, "b@x", 1000, 0, 0, 0, 1000, "eur", "pending", some "sess"⟩],
           [], 0⟩
          ⟨fun _ => "I", fun _ => "C", 0, 0⟩).1 := by
  exact webhook_second_delivery_acknowledged_without_reprocessing
    ⟨[⟨"X", "Show", 10, 20, 30, false, 5⟩],
     [⟨"O1", "X", none, "b@x", "standard", 1, 1000, "eur", "pending", none, some "G"⟩],
     [⟨"G", none, "b@x", 1000, 0, 0, 0, 1000, "eur", "pending", some "sess"⟩],
     [], 0⟩
    ⟨fun _ => "I", fun _ => "C", 0, 0⟩ ⟨fun _ => "J", fun _ => "D", 0, 0⟩ "sess"
    (Or.inr (by decide))

/-! ## Claim C6 -/

/-- Group/order consistency: for every order-group row, the child orders'
`total_amount`s sum to the group's `subtotal_amount`, and if the group is
`'paid'` then every child order is `'paid'`. -/
def groupConsistent (db : Db) : Prop :=
  ∀ grp ∈ db.groups,
    (((db.orders.filter (fun o => o.groupId = some grp.id)).map Order.totalAmount).sum
      = grp.subtotalAmount) ∧
    (grp.status = "paid" → ∀ o ∈ db.orders, o.groupId = some grp.id → o.status = "paid")

lemma groupConsistent_congr (db db₂ : Db) (hgr : db₂.groups = db.groups)
    (hor : db₂.orders = db.orders) (h : groupConsistent db) : groupConsistent db₂ := by
  unfold groupConsistent at h ⊢
  rw [hgr, hor]
  exact h

lemma filter_map_sum_upd (l : List Order) (F : Order → Order)
    (hgid : ∀ o, (F o).groupId = o.groupId)
    (htot : ∀ o, (F o).totalAmount = o.totalAmount) (gid : String) :
    (((l.map F).filter (fun o => o.groupId = some gid)).map Order.totalAmount).sum
      = ((l.filter (fun o => o.groupId = some gid)).map Order.totalAmount).sum := by
  induction l with
  | nil => rfl
  | cons a t ih =>
    by_cases hp : a.groupId = some gid
    · rw [List.map_cons, List.filter_cons_of_pos (by simp [hgid, hp]),
        List.filter_cons_of_pos (by simp [hp])]
      simp only [List.map_cons, List.sum_cons, htot, ih]
    · rw [List.map_cons, List.filter_cons_of_neg (by simp [hgid, hp]),
        List.filter_cons_of_neg (by simp [hp])]
      exact ih

/-- `setOrderPaid` preserves group/order consistency: it only ever moves an
order's status to `'paid'`. -/
lemma groupConsistent_setOrderPaid (db : Db) (oid : String)
    (h : groupConsistent db) : groupConsistent (setOrderPaid db oid).2 := by
  intro grp hgrp
  have hgrp' : grp ∈ db.groups := hgrp
  obtain ⟨hsum, hpaid⟩ := h grp hgrp'
  constructor
  · show (((db.orders.map _).filter _).map _).sum = _
    rw [filter_map_sum_upd db.orders _
      (by intro o; by_cases ho : o.id = oid <;> simp [ho])
      (by intro o; by_cases ho : o.id = oid <;> simp [ho]) grp.id]
    exact hsum
  · intro hst o ho hog
    simp only [setOrderPaid, List.mem_map] at ho
    obtain ⟨o₀, ho₀, heq⟩ := ho
    by_cases hid : o₀.id = oid
    · rw [← heq]
      simp [hid]
    · rw [← heq] at hog ⊢
      simp only [hid, if_false] at hog ⊢
      exact hpaid hst o₀ ho₀ hog

/-- `setOrderGroupPaid` preserves (and for its own group, establishes)
consistency: the group is marked paid and every child order is marked paid
in the same operation. -/
lemma groupConsistent_setOrderGroupPaid (db : Db) (gid : String)
    (h : groupConsistent db) : groupConsistent (setOrderGroupPaid db gid).2 := by
  intro grp hgrp
  simp only [setOrderGroupPaid, List.mem_map] at hgrp
  obtain ⟨g₀, hg₀, heq⟩ := hgrp
  have hid : grp.id = g₀.id := by
    rw [← heq]
    by_cases hx : g₀.id = gid <;> simp [hx]
  have hsub : grp.subtotalAmount = g₀.subtotalAmount := by
    rw [← heq]
    by_cases hx : g₀.id = gid <;> simp [hx]
  obtain ⟨hsum, hpaid⟩ := h g₀ hg₀
  constructor
  · show (((db.orders.map _).filter _).map _).sum = _
    rw [filter_map_sum_upd db.orders _
      (by intro o; by_cases ho : o.groupId = some gid <;> simp [ho])
      (by intro o; by_cases ho : o.groupId = some gid <;> simp [ho]) grp.id]
    rw [hid, hsub]
    exact hsum
  · intro hst o ho hog
    simp only [setOrderGroupPaid, List.mem_map] at ho
    obtain ⟨o₀, ho₀, heqo⟩ := ho
    by_cases hgo : o₀.groupId = some gid
    · rw [← heqo]
      simp [hgo]
    · have ho₀g : o₀.groupId = some grp.id := by
        rw [← heqo] at hog
        simpa [hgo] using hog
      rw [← heqo]
      simp only [hgo, if_false]
      by_cases hx : g₀.id = gid
      · exact absurd (by rw [ho₀g, hid, hx] : o₀.groupId = some gid) hgo
      · have hgg : grp = g₀ := by rw [← heq]; simp [hx]
        have hg₀st : g₀.status = "paid" := by rw [← hgg]; exact hst
        rw [hgg] at ho₀g
        exact hpaid hg₀st o₀ ho₀ ho₀g

lemma groupConsistent_fulfillOrdersLoop :
    ∀ (os : List Order) (db : Db) (g : Gen) (acc : List Ticket),
      groupConsistent db → groupConsistent (fulfillOrdersLoop os db g acc).2.1 := by
  intro os
  induction os with
  | nil =>
    intro db g acc h
    exact h
  | cons ord rest ih =>
    intro db g acc h
    have hdb₁ : groupConsistent (setOrderPaid db ord.id).2 :=
      groupConsistent_setOrderPaid db ord.id h
    rcases hpo : (setOrderPaid db ord.id).1 with _ | paid
    · simp only [fulfillOrdersLoop, setOrderPaid] at hpo ⊢
      simp only [hpo]
      exact hdb₁
    · rcases hIT : issueTickets paid (setOrderPaid db ord.id).2 g with ⟨res, dbB, gB⟩
      have hfr := issueTickets_frame paid (setOrderPaid db ord.id).2 g
      rw [hIT] at hfr
      dsimp only at hfr
      have hdbB : groupConsistent dbB :=
        groupConsistent_congr _ dbB hfr.2.1 hfr.1 hdb₁
      rcases res with e | ts
      · simp only [fulfillOrdersLoop, setOrderPaid] at hpo hIT ⊢
        simp only [hpo, hIT]
        exact hdbB
      · have hdec := decrement_frame dbB ord.contentId
          (if ord.quantity = 0 then 0 else ord.quantity)
        have hdbC : groupConsistent (decrementAvailableTickets dbB ord.contentId
            (if ord.quantity = 0 then 0 else ord.quantity)) :=
          groupConsistent_congr dbB _ hdec.2.1 hdec.1 hdbB
        simp only [fulfillOrdersLoop, setOrderPaid] at hpo hIT ⊢
        simp only [hpo, hIT]
        exact ih _ gB (acc ++ ts) hdbC

lemma groupConsistent_webhookSingleFallback (sid : String) (db : Db) (g : Gen)
    (h : groupConsistent db) : groupConsistent (webhookSingleFallback sid db g).1 := by
  rcases ho : getOrderByStripeSession db sid with _ | ord
  · rw [(webhookSingleFallback_paid_state sid db g).2 ho]
    exact h
  · by_cases hps : ord.status = "paid"
    · rw [(webhookSingleFallback_paid_state sid db g).1 ord ho hps]
      exact h
    · obtain ⟨hgr, hor⟩ := webhookSingleFallback_state sid db g ord ho hps
      exact groupConsistent_congr (setOrderPaid db ord.id).2 _
        (by rw [hgr]; rfl) (by rw [hor]; rfl) (groupConsistent_setOrderPaid db ord.id h)

lemma groupConsistent_webhookCheckoutCompleted (sid : String) (db : Db) (g : Gen)
    (h : groupConsistent db) : groupConsistent (webhookCheckoutCompleted sid db g).1 := by
  rcases hg : getOrderGroupByStripeSession db sid with _ | grp
  · simp only [webhookCheckoutCompleted, hg]
    exact groupConsistent_webhookSingleFallback sid db g h
  · by_cases hps : grp.status = "paid"
    · simp only [webhookCheckoutCompleted, hg]
      rw [if_neg (by simp [hps])]
      exact groupConsistent_webhookSingleFallback sid db g h
    · rcases hR : fulfillOrdersLoop
          (getOrdersByGroupId (setOrderGroupPaid db grp.id).2 grp.id)
          (setOrderGroupPaid db grp.id).2 g [] with ⟨res, dbF, gF⟩
      have hcons := groupConsistent_fulfillOrdersLoop
        (getOrdersByGroupId (setOrderGroupPaid db grp.id).2 grp.id)
        (setOrderGroupPaid db grp.id).2 g []
        (groupConsistent_setOrderGroupPaid db grp.id h)
      rw [hR] at hcons
      dsimp only at hcons
      simp only [webhookCheckoutCompleted, hg]
      rw [if_pos hps]
      simp only [setOrderGroupPaid] at hR ⊢
      simp only [hR]
      exact hcons

lemma validateCartLoop_ok_sum (db : Db) :
    ∀ (items : List CartItem) (subtotal : ℚ) (acc : List LineDetail)
      (sub' : ℚ) (lines : List LineDetail),
      validateCartLoop db items subtotal acc = .ok (sub', lines) →
      ∃ rest, lines = acc ++ rest ∧ sub' = subtotal + ((rest.map LineDetail.totalCents).sum) := by
  intro items
  induction items with
  | nil =>
    intro subtotal acc sub' lines hok
    simp only [validateCartLoop] at hok
    injection hok with hpair
    injection hpair with h1 h2
    exact ⟨[], by simp [← h2], by simp [← h1]⟩
  | cons it rest ih =>
    intro subtotal acc sub' lines hok
    rcases hc : getContentById db it.contentId with _ | c
    · simp only [validateCartLoop, hc] at hok
      exact absurd hok (by simp)
    · rcases hp : resolvePrice c it.ticketType with _ | unit
      · simp only [validateCartLoop, hc, hp] at hok
        exact absurd hok (by simp)
      · by_cases hcond : ¬ c.unlimitedTickets = true ∧
            (if c.availableTickets = 0 then 0 else c.availableTickets) < it.quantity
        · simp only [validateCartLoop, hc, hp] at hok
          rw [if_pos hcond] at hok
          exact absurd hok (by simp)
        · have hstep : validateCartLoop db (it :: rest) subtotal acc
              = validateCartLoop db rest
                  (subtotal + ((jsRound (unit * 100) : ℤ) : ℚ) * it.quantity)
                  (acc ++ [{ contentId := it.contentId, ticketType := it.ticketType
                             quantity := it.quantity
                             unitCents := ((jsRound (unit * 100) : ℤ) : ℚ)
                             totalCents := ((jsRound (unit * 100) : ℤ) : ℚ) * it.quantity
                             title := c.title }]) := by
            simp only [validateCartLoop, hc, hp]
            rw [if_neg hcond]
          rw [hstep] at hok
          obtain ⟨tail, hlines, hsub⟩ := ih _ _ _ _ hok
          refine ⟨{ contentId := it.contentId, ticketType := it.ticketType
                    quantity := it.quantity
                    unitCents := ((jsRound (unit * 100) : ℤ) : ℚ)
                    totalCents := ((jsRound (unit * 100) : ℤ) : ℚ) * it.quantity
                    title := c.title } :: tail, ?_, ?_⟩
          · rw [hlines]
            simp
          · rw [hsub]
            simp only [List.map_cons, List.sum_cons]
            ring

lemma validateCartLoop_ok_int (db : Db) :
    ∀ (items : List CartItem) (subtotal : ℚ) (acc : List LineDetail)
      (sub' : ℚ) (lines : List LineDetail),
      (∀ it ∈ items, ∃ z : ℤ, it.quantity = (z : ℚ)) →
      (∃ z : ℤ, subtotal = (z : ℚ)) →
      validateCartLoop db items subtotal acc = .ok (sub', lines) →
      ∃ z : ℤ, sub' = (z : ℚ) := by
  intro items
  induction items with
  | nil =>
    intro subtotal acc sub' lines _ hz hok
    simp only [validateCartLoop] at hok
    injection hok with hpair
    injection hpair with h1 _
    rw [← h1]
    exact hz
  | cons it rest ih =>
    intro subtotal acc sub' lines hint hz hok
    rcases hc : getContentById db it.contentId with _ | c
    · simp only [validateCartLoop, hc] at hok
      exact absurd hok (by simp)
    · rcases hp : resolvePrice c it.ticketType with _ | unit
      · simp only [validateCartLoop, hc, hp] at hok
        exact absurd hok (by simp)
      · by_cases hcond : ¬ c.unlimitedTickets = true ∧
            (if c.availableTickets = 0 then 0 else c.availableTickets) < it.quantity
        · simp only [validateCartLoop, hc, hp] at hok
          rw [if_pos hcond] at hok
          exact absurd hok (by simp)
        · have hstep : validateCartLoop db (it :: rest) subtotal acc
              = validateCartLoop db rest
                  (subtotal + ((jsRound (unit * 100) : ℤ) : ℚ) * it.quantity)
                  (acc ++ [{ contentId := it.contentId, ticketType := it.ticketType
                             quantity := it.quantity
                             unitCents := ((jsRound (unit * 100) : ℤ) : ℚ)
                             totalCents := ((jsRound (unit * 100) : ℤ) : ℚ) * it.quantity
                             title := c.title }]) := by
            simp only [validateCartLoop, hc, hp]
            rw [if_neg hcond]
          rw [hstep] at hok
          obtain ⟨zq, hzq⟩ := hint it (List.mem_cons_self it rest)
          obtain ⟨z0, hz0⟩ := hz
          refine ih _ _ _ _ (fun x hx => hint x (List.mem_cons_of_mem it hx)) ?_ hok
          exact ⟨z0 + jsRound (unit * 100) * zq, by push_cast [hz0, hzq]; ring⟩

lemma find?_append_of_none {α : Type} (l : List α) (p : α → Bool) (x : α)
    (hl : ∀ y ∈ l, p y = false) (hx : p x = true) : (l ++ [x]).find? p = some x := by
  induction l with
  | nil => simp [List.find?, hx]
  | cons a t ih =>
    rw [List.cons_append, List.find?_cons_of_neg _ (by simp [hl a (List.mem_cons_self a t)])]
    exact ih (fun y hy => hl y (List.mem_cons_of_mem a hy))

lemma createOrdersLoop_state (gid : String) (userId : Option String) (email : String) :
    ∀ (lines : List LineDetail) (db : Db) (g : Gen) (acc : List Order),
      ∃ (ords : List Order) (rows : List Order) (db₂ : Db) (g₂ : Gen),
        createOrdersLoop gid userId email lines db g acc = (.ok ords, db₂, g₂) ∧
        db₂.orders = db.orders ++ rows ∧
        db₂.groups = db.groups ∧
        rows.map Order.totalAmount = lines.map LineDetail.totalCents ∧
        (∀ r ∈ rows, r.groupId = some gid ∧ r.status = "pending") := by
  intro lines
  induction lines with
  | nil =>
    intro db g acc
    exact ⟨acc, [], db, g, rfl, by simp, rfl, by simp, by simp⟩
  | cons line rest ih =>
    intro db g acc
    set row : Order :=
      { id := g.ids g.idCtr, contentId := line.contentId, userId := userId
        buyerEmail := email, ticketType := line.ticketType, quantity := line.quantity
        totalAmount := line.totalCents, currency := "eur", status := "pending"
        stripeSessionId := none, groupId := some gid } with hrow
    obtain ⟨y, hfy, hpy⟩ := find?_append_singleton db.orders (fun o => o.id = g.ids g.idCtr)
      row (by simp [hrow])
    have hstep : createOrdersLoop gid userId email (line :: rest) db g acc
        = createOrdersLoop gid userId email rest
            { db with orders := db.orders ++ [row] }
            { g with idCtr := g.idCtr + 1 } (acc ++ [y]) := by
      simp only [createOrdersLoop, Gen.nextId, createOrderInGroup]
      rw [hfy]
    obtain ⟨ords, rows, db₂, g₂, heq, hor, hgr, htot, hrows⟩ :=
      ih { db with orders := db.orders ++ [row] } { g with idCtr := g.idCtr + 1 } (acc ++ [y])
    refine ⟨ords, row :: rows, db₂, g₂, by rw [hstep, heq], ?_, hgr, ?_, ?_⟩
    · rw [hor]
      simp
    · simp only [List.map_cons, htot, hrow]
    · intro r hr
      rcases List.mem_cons.mp hr with hr | hr
      · subst hr
        exact ⟨rfl, rfl⟩
      · exact hrows r hr

lemma groupConsistent_setOrderGroupStripeSession (db : Db) (gid sess : String)
    (h : groupConsistent db) :
    groupConsistent (setOrderGroupStripeSession db gid sess) := by
  intro grp hgrp
  simp only [setOrderGroupStripeSession, List.mem_map] at hgrp
  obtain ⟨g₀, hg₀, heq⟩ := hgrp
  have hid : grp.id = g₀.id := by
    rw [← heq]
    by_cases hx : g₀.id = gid <;> simp [hx]
  have hsub : grp.subtotalAmount = g₀.subtotalAmount := by
    rw [← heq]
    by_cases hx : g₀.id = gid <;> simp [hx]
  have hst : grp.status = g₀.status := by
    rw [← heq]
    by_cases hx : g₀.id = gid <;> simp [hx]
  obtain ⟨hsum, hpaid⟩ := h g₀ hg₀
  constructor
  · show ((db.orders.filter _).map _).sum = _
    rw [hid, hsub]
    exact hsum
  · intro hstp o ho hog
    rw [hid] at hog
    exact hpaid (by rw [← hst]; exact hstp) o ho hog

lemma list_filter_groupId_nil (l : List Order) (gid : String)
    (h : ∀ o ∈ l, ¬ o.groupId = some gid) :
    l.filter (fun o => o.groupId = some gid) = [] := by
  induction l with
  | nil => rfl
  | cons a t ih =>
    rw [List.filter_cons_of_neg (by simpa using h a (List.mem_cons_self a t))]
    exact ih (fun o ho => h o (List.mem_cons_of_mem a ho))

lemma list_filter_groupId_all (l : List Order) (gid : String)
    (h : ∀ o ∈ l, o.groupId = some gid) :
    l.filter (fun o => o.groupId = some gid) = l := by
  induction l with
  | nil => rfl
  | cons a t ih =>
    rw [List.filter_cons_of_pos (by simpa using h a (List.mem_cons_self a t))]
    rw [ih (fun o ho => h o (List.mem_cons_of_mem a ho))]

lemma groupConsistent_after_creation (db₂ db : Db) (grow : OrderGroup) (rows : List Order)
    (hgr : db₂.groups = db.groups ++ [grow]) (hor : db₂.orders = db.orders ++ rows)
    (h : groupConsistent db)
    (hfreshg : ∀ grp ∈ db.groups, grp.id ≠ grow.id)
    (hfresho : ∀ o ∈ db.orders, o.groupId ≠ some grow.id)
    (hrows : ∀ r ∈ rows, r.groupId = some grow.id ∧ r.status = "pending")
    (hsum : (rows.map Order.totalAmount).sum = grow.subtotalAmount)
    (hpending : grow.status = "pending") :
    groupConsistent db₂ := by
  intro grp hgrp
  rw [hgr] at hgrp
  rcases List.mem_append.mp hgrp with hold | hnew
  · obtain ⟨hsum₀, hpaid₀⟩ := h grp hold
    have hne : grp.id ≠ grow.id := hfreshg grp hold
    constructor
    · rw [hor, List.filter_append,
        list_filter_groupId_nil rows grp.id (by
          intro r hr hcontra
          exact hne (by
            have := (hrows r hr).1
            rw [this] at hcontra
            exact (Option.some_injective _ hcontra).symm))]
      simpa using hsum₀
    · intro hstp o ho hog
      rw [hor] at ho
      rcases List.mem_append.mp ho with ho | ho
      · exact hpaid₀ hstp o ho hog
      · exact absurd hog (by
          rw [(hrows o ho).1]
          intro hcontra
          exact hne (Option.some_injective _ hcontra).symm)
  · have hgrow : grp = grow := by simpa using hnew
    subst hgrow
    constructor
    · rw [hor, List.filter_append,
        list_filter_groupId_nil db.orders grp.id (fun o ho => hfresho o ho),
        list_filter_groupId_all rows grp.id (fun r hr => (hrows r hr).1)]
      simpa using hsum
    · intro hstp
      rw [hpending] at hstp
      exact absurd hstp (by simp)

lemma groupConsistent_postPurchaseCart (env : Env) (s : Settings)
    (auth : Option (String × String)) (req : CartReq) (db : Db) (g : Gen)
    (hint : ∀ it ∈ req.cart.map normCartCheckout, ∃ z : ℤ, it.quantity = (z : ℚ))
    (hfreshg : ∀ grp ∈ db.groups, grp.id ≠ g.ids g.idCtr)
    (hfresho : ∀ o ∈ db.orders, o.groupId ≠ some (g.ids g.idCtr))
    (h : groupConsistent db) :
    groupConsistent (postPurchaseCart env s auth req db g).2.1 := by
  by_cases hne : req.cart = []
  · simp only [postPurchaseCart, if_pos hne]
    exact h
  · rcases he : resolveEmail auth req.buyerEmail with _ | email
    · simp only [postPurchaseCart, if_neg hne, he]
      exact h
    · rcases hv : validateCartLoop db (req.cart.map normCartCheckout) 0 []
        with e | ⟨subtotal, lines⟩
      · rcases e with m | m <;> simp only [postPurchaseCart, if_neg hne, he, hv] <;> exact h
      · obtain ⟨tail, hlines, hsub⟩ := validateCartLoop_ok_sum db _ 0 [] _ _ hv
        obtain ⟨z, hz⟩ := validateCartLoop_ok_int db _ 0 [] _ _ hint ⟨0, by norm_num⟩ hv
        simp only [List.nil_append] at hlines
        subst hlines
        set gid := g.ids g.idCtr with hgid
        set bd := cartFeeBreakdown subtotal s with hbd
        set grow : OrderGroup :=
          { id := gid, userId := auth.map Prod.fst, buyerEmail := email
            subtotalAmount := ((jsRound bd.subtotal : ℤ) : ℚ)
            serviceFeeAmount := ((jsRound (if bd.serviceFee = 0 then 0 else bd.serviceFee) : ℤ) : ℚ)
            paymentFeeAmount := ((jsRound (if bd.paymentFee = 0 then 0 else bd.paymentFee) : ℤ) : ℚ)
            taxAmount := ((jsRound (if bd.tax = 0 then 0 else bd.tax) : ℤ) : ℚ)
            totalAmount := ((jsRound bd.total : ℤ) : ℚ)
            currency := "eur", status := "pending", stripeSessionId := none } with hgrow
        have hfind : (db.groups ++ [grow]).find? (fun x => x.id = gid) = some grow :=
          find?_append_of_none db.groups _ grow
            (fun y hy => by simpa using hfreshg y hy) (by simp [hgrow])
        have hgrowid : grow.id = gid := by rw [hgrow]
        obtain ⟨ords, rows, db₂, g₂, hC, hor, hgr, htot, hrows⟩ :=
          createOrdersLoop_state gid (auth.map Prod.fst) email lines
            { db with groups := db.groups ++ [grow] } { g with idCtr := g.idCtr + 1 } []
        have hsubz : ((jsRound bd.subtotal : ℤ) : ℚ) = subtotal := by
          have hbs : bd.subtotal = subtotal := by rw [hbd]; rfl
          rw [hbs, hz, jsRound_intCast]
        have hgc₂ : groupConsistent db₂ := by
          refine groupConsistent_after_creation db₂ db grow rows
            (by rw [hgr]) (by rw [hor]) h
            (by rw [hgrowid]; exact hfreshg)
            (by rw [hgrowid]; exact hfresho)
            (by rw [hgrowid]; exact hrows) ?_ (by rw [hgrow])
          calc (rows.map Order.totalAmount).sum
              = (lines.map LineDetail.totalCents).sum := by rw [htot]
            _ = subtotal := by rw [hsub]; ring
            _ = ((jsRound bd.subtotal : ℤ) : ℚ) := hsubz.symm
            _ = grow.subtotalAmount := by rw [hgrow]
        simp only [postPurchaseCart, if_neg hne, he, hv, Gen.nextId, createOrderGroup]
        rw [hfind]
        simp only [hgrowid, hC]
        by_cases hsm : jsToLower (jsOrStr req.method "stripe") = "stripe"
        · rw [if_pos hsm]
          by_cases hcfg : env.stripeConfigured = true
          · rw [if_neg (by simp [hcfg])]
            exact groupConsistent_setOrderGroupStripeSession db₂ gid env.sessionId hgc₂
          · rw [if_pos (by simp [hcfg])]
            exact hgc₂
        · rw [if_neg hsm]
          rcases hR : fulfillOrdersLoop ords (setOrderGroupPaid db₂ gid).2 g₂ []
            with ⟨res, dbF, gF⟩
          have hF := groupConsistent_fulfillOrdersLoop ords (setOrderGroupPaid db₂ gid).2 g₂ []
            (groupConsistent_setOrderGroupPaid db₂ gid hgc₂)
          rw [hR] at hF
          dsimp only at hF
          rcases res with e | ts
          · exact hF
          · exact hF

/-- C6 (amended): marking an order group paid cascades `'paid'` to every
child order, and group/order consistency (children sum to the group's
subtotal; paid groups have paid children) is preserved by
`setOrderGroupPaid`, by the webhook, and by cart checkout provided every
clamped line quantity is an integer (with a fresh group id); with a
fractional quantity the group's rounded subtotal can differ from the
un-rounded child sum (see the counterexample). -/
theorem paid_group_children_paid_and_sum :
    (∀ (db : Db) (gid : String) (o : Order), o ∈ (setOrderGroupPaid db gid).2.orders →
      o.groupId = some gid → o.status = "paid") ∧
    (∀ (db : Db) (gid : String), groupConsistent db →
      groupConsistent (setOrderGroupPaid db gid).2) ∧
    (∀ (db : Db) (sid : String) (g : Gen), groupConsistent db →
      groupConsistent (webhookCheckoutCompleted sid db g).1) ∧
    (∀ (env : Env) (s : Settings) (auth : Option (String × String)) (req : CartReq)
      (db : Db) (g : Gen),
      (∀ it ∈ req.cart.map normCartCheckout, ∃ z : ℤ, it.quantity = (z : ℚ)) →
      (∀ grp ∈ db.groups, grp.id ≠ g.ids g.idCtr) →
      (∀ o ∈ db.orders, o.groupId ≠ some (g.ids g.idCtr)) →
      groupConsistent db →
      groupConsistent (postPurchaseCart env s auth req db g).2.1) := by
  refine ⟨?_, groupConsistent_setOrderGroupPaid, ?_, ?_⟩
  · intro db gid o ho hog
    simp only [setOrderGroupPaid, List.mem_map] at ho
    obtain ⟨o₀, _, heq⟩ := ho
    by_cases hgo : o₀.groupId = some gid
    · rw [← heq]
      simp [hgo]
    · exfalso
      rw [← heq] at hog
      simp only [hgo, if_false] at hog
  · intro db sid g h
    exact groupConsistent_webhookCheckoutCompleted sid db g h
  · intro env s auth req db g hint hfreshg hfresho h
    exact groupConsistent_postPurchaseCart env s auth req db g hint hfreshg hfresho h

/-- Witness for C6: on a one-group/one-order consistent database,
`setOrderGroupPaid` keeps consistency and marks the child order paid. -/
theorem paid_group_children_paid_and_sum_witness :
    (∀ o ∈ (setOrderGroupPaid
        ⟨[], [⟨"O", "X", none, "b@x", "standard", 1, 1000, "eur", "pending", none, some "G"⟩],
         [⟨"G", none, "b@x", 1000, 0, 0, 0, 1000, "eur", "pending", none⟩], [], 0⟩ "G").2.orders,
      o.groupId = some "G" → o.status = "paid") ∧
    groupConsistent (setOrderGroupPaid
        ⟨[], [⟨"O", "X", none, "b@x", "standard", 1, 1000, "eur", "pending", none, some "G"⟩],
         [⟨"G", none, "b@x", 1000, 0, 0, 0, 1000, "eur", "pending", none⟩], [], 0⟩ "G").2 := by
  constructor
  · intro o ho hog
    exact paid_group_children_paid_and_sum.1 _ "G" o ho hog
  · refine paid_group_children_paid_and_sum.2.1 _ "G" ?_
    intro grp hgrp
    simp only [List.mem_singleton] at hgrp
    subst hgrp
    constructor
    · norm_num [List.filter]
    · intro hst
      simp at hst

/-- C6 counterexample: a cart line with the fractional quantity 2.5
(accepted by the clamp) at unit price 10.01 yields a paid group whose
stored `subtotal_amount` is the rounded 2503 while its only child order's
`total_amount` is the un-rounded 2502.5, so the sum of child totals does
not equal the group subtotal. -/
theorem paid_group_sum_mismatch_counterexample :
    (postPurchaseCart ⟨true, "sess", "url"⟩ ⟨none, none, none, none, none⟩ none
        ⟨[⟨"X", "standard", some (5/2)⟩], some "manual", some "b@x"⟩
        ⟨[⟨"X", "Show", 1001/100, 20, 30, false, 5⟩], [], [], [], 0⟩
        ⟨fun n => if n = 0 then "G" else "O",
         fun n => if n = 0 then "T0" else if n = 1 then "T1" else "T2", 0, 0⟩).2.1.groups
      = [⟨"G", none, "b@x", 2503, 0, 0, 0, 2503, "eur", "paid", none⟩] ∧
    (postPurchaseCart ⟨true, "sess", "url"⟩ ⟨none, none, none, none, none⟩ none
        ⟨[⟨"X", "standard", some (5/2)⟩], some "manual", some "b@x"⟩
        ⟨[⟨"X", "Show", 1001/100, 20, 30, false, 5⟩], [], [], [], 0⟩
        ⟨fun n => if n = 0 then "G" else "O",
         fun n => if n = 0 then "T0" else if n = 1 then "T1" else "T2", 0, 0⟩).2.1.orders
      = [⟨"O", "X", none, "b@x", "standard", 5/2, 5005/2, "eur", "paid", none, some "G"⟩] ∧
    ¬ groupConsistent (postPurchaseCart ⟨true, "sess", "url"⟩ ⟨none, none, none, none, none⟩ none
        ⟨[⟨"X", "standard", some (5/2)⟩], some "manual", some "b@x"⟩
        ⟨[⟨"X", "Show", 1001/100, 20, 30, false, 5⟩], [], [], [], 0⟩
        ⟨fun n => if n = 0 then "G" else "O",
         fun n => if n = 0 then "T0" else if n = 1 then "T1" else "T2", 0, 0⟩).2.1 := by
  have h1 : (if ("b@x" : String) = "" then (none : Option String) else some "b@x")
      = some "b@x" := by decide
  have h2 : String.mk (List.map Char.toLower
      (if ("manual" : String) = "" then "stripe" else "manual").data)
      = "manual" := by decide
  have h3 : (("manual" : String) = "stripe") = False := by decide
  have hcnt : ((0 : ℤ) ⊔ ⌈(5/2 : ℚ)⌉).toNat = 3 := by
    rw [show ⌈(5/2 : ℚ)⌉ = 3 from by rw [Int.ceil_eq_iff] <;> norm_num]
    decide
  have h4 : (("T0" : String) = "T1") = False := by decide
  have h5 : (("T0" : String) = "T2") = False := by decide
  have h6 : (("T1" : String) = "T2") = False := by decide
  have hgr : (postPurchaseCart ⟨true, "sess", "url"⟩ ⟨none, none, none, none, none⟩ none
        ⟨[⟨"X", "standard", some (5/2)⟩], some "manual", some "b@x"⟩
        ⟨[⟨"X", "Show", 1001/100, 20, 30, false, 5⟩], [], [], [], 0⟩
        ⟨fun n => if n = 0 then "G" else "O",
         fun n => if n = 0 then "T0" else if n = 1 then "T1" else "T2", 0, 0⟩).2.1.groups
      = [⟨"G", none, "b@x", 2503, 0, 0, 0, 2503, "eur", "paid", none⟩] := by
    norm_num [postPurchaseCart, resolveEmail, normCartCheckout, validateCartLoop,
      getContentById, resolvePrice, jsOrNum, jsRound, cartFeeBreakdown, createOrderGroup,
      createOrdersLoop, createOrderInGroup, setOrderGroupPaid, fulfillOrdersLoop,
      setOrderPaid, issueTickets, issueTicketsLoop, decrementAvailableTickets,
      jsToLower, jsOrStr, Gen.nextId, Gen.nextCode, List.find?, h1, h2, h3, hcnt, h4, h5, h6]
  have hor : (postPurchaseCart ⟨true, "sess", "url"⟩ ⟨none, none, none, none, none⟩ none
        ⟨[⟨"X", "standard", some (5/2)⟩], some "manual", some "b@x"⟩
        ⟨[⟨"X", "Show", 1001/100, 20, 30, false, 5⟩], [], [], [], 0⟩
        ⟨fun n => if n = 0 then "G" else "O",
         fun n => if n = 0 then "T0" else if n = 1 then "T1" else "T2", 0, 0⟩).2.1.orders
      = [⟨"O", "X", none, "b@x", "standard", 5/2, 5005/2, "eur", "paid", none, some "G"⟩] := by
    norm_num [postPurchaseCart, resolveEmail, normCartCheckout, validateCartLoop,
      getContentById, resolvePrice, jsOrNum, jsRound, cartFeeBreakdown, createOrderGroup,
      createOrdersLoop, createOrderInGroup, setOrderGroupPaid, fulfillOrdersLoop,
      setOrderPaid, issueTickets, issueTicketsLoop, decrementAvailableTickets,
      jsToLower, jsOrStr, Gen.nextId, Gen.nextCode, List.find?, h1, h2, h3, hcnt, h4, h5, h6]
  refine ⟨hgr, hor, ?_⟩
  intro hgc
  obtain ⟨hsum, _⟩ := hgc ⟨"G", none, "b@x", 2503, 0, 0, 0, 2503, "eur", "paid", none⟩
    (by rw [hgr]; exact List.mem_singleton.mpr rfl)
  rw [hor] at hsum
  norm_num [List.filter] at hsum

end VRTheatre
